import Mathlib

/-!
Shallow embedding of the x32dbgMCP HTTP control-server core (the `_WIN64`
build of the plugin: `duint` and `size_t` are 64-bit, the register set is
the x64 one, `ARCH_NAME = "x64"`).  C++ byte strings are modelled as Lean
`String`/`List Char` whose characters are the bytes; machine integers are
`Nat`/`Int` with explicit `% 2^w` where wrap-around matters.

Sources embedded (named as in the repository):
- the main plugin translation unit (`UrlDecode`, `ParseQuery`,
  `ParseRegister`, `HandleRequest`, `ServerThread`'s per-connection
  read/parse/dispatch step);
- `mcp_common.h` (`JsonEscape`, `ToHex`, `BoolToJson`, `SendResponse`,
  `GetParam`, `GetParamAddr`, `GetParamInt`, `GetParamBool`);
- `mcp_handlers_pattern.h`, `mcp_handlers_stack.h`,
  `mcp_handlers_function.h` and the label/comment/symbol, assembler,
  misc and flag handler headers.

The external debugger engine (`Script::*`, `Dbg*`) is out of scope of the
repository; it is modelled as an oracle structure `Engine`, and every
invocation of an engine operation is logged as an `EngineCall` so that
"the engine is / is not invoked" is a statement about the produced log.
`SendResponse` is modelled by appending a `Response` record to the list of
responses written to the socket.
-/

namespace X32MCP

/-! ### C runtime character primitives -/

/-- ASCII `tolower` as used via `std::transform(..., ::tolower)`:
bytes outside `'A'..'Z'` are returned unchanged ("C" locale). -/
def asciiToLower (c : Char) : Char :=
  if 'A' ≤ c ∧ c ≤ 'Z' then Char.ofNat (c.toNat + 32) else c

/-- Lower-casing of a whole string (`std::transform` over the string). -/
def strLower (s : String) : String :=
  ⟨s.data.map asciiToLower⟩

/-- `isspace` in the "C" locale: the six standard whitespace bytes. -/
def isWsChar (c : Char) : Bool :=
  c = ' ' ∨ c = '\t' ∨ c = '\n' ∨ c = '\x0b' ∨ c = '\x0c' ∨ c = '\r'

/-- Numeric value of a character as a digit, `99` for non-digits.
Covers `0-9`, `a-f`, `A-F`; a digit is valid for base `b` iff its value
is `< b`. -/
def digitVal (c : Char) : Nat :=
  if '0' ≤ c ∧ c ≤ '9' then c.toNat - 48
  else if 'a' ≤ c ∧ c ≤ 'f' then c.toNat - 87
  else if 'A' ≤ c ∧ c ≤ 'F' then c.toNat - 55
  else 99

/-! ### `strtoull`/`strtol`-style numeric parsing

`std::stoull(s, nullptr, 0)` and `std::stoi(s, nullptr, 0)` (and
`std::stoi(s, nullptr, 16)` in the `/memory/write` hex loop) delegate to
the C `strtoull`/`strtol` family: skip whitespace, read an optional sign,
detect the base (for base 0: `0x`/`0X` → hex, leading `0` → octal,
otherwise decimal), then consume a maximal run of digits.  They throw
`std::invalid_argument` when no digit is consumed and `std::out_of_range`
when the value does not fit the result type; trailing characters after
the digit run are ignored (`pos` is not inspected by the callers). -/

/-- Greedy digit run in base `b`: returns the accumulated value and the
number of digits consumed. -/
def parseDigits (b : Nat) (acc cnt : Nat) : List Char → Nat × Nat
  | [] => (acc, cnt)
  | c :: rest =>
    if digitVal c < b then parseDigits b (acc * b + digitVal c) (cnt + 1) rest
    else (acc, cnt)

/-- Optional sign: returns (negative?, rest). -/
def readSign : List Char → Bool × List Char
  | [] => (false, [])
  | c :: rest =>
    if c = '-' then (true, rest)
    else if c = '+' then (false, rest)
    else (false, c :: rest)

/-- The digit/base-prefix part of `strtoull`/`strtol` after whitespace and
sign have been consumed.  `base0 = true` models base argument `0`
(prefix detection, octal for a leading `0`), `base0 = false` models
base `16` (optional `0x` prefix).  Returns `none` when no digit at all is
consumed (→ `std::invalid_argument`). -/
def magParse (base0 : Bool) : List Char → Option Nat
  | '0' :: x :: rest =>
    if x = 'x' ∨ x = 'X' then
      -- `0x` prefix; if no hex digit follows, the parsed subject is the
      -- single `0` and the value is 0
      some (parseDigits 16 0 0 rest).1
    else if base0 then some (parseDigits 8 0 0 (x :: rest)).1
    else some (parseDigits 16 0 0 ('0' :: x :: rest)).1
  | ['0'] => some 0
  | l =>
    let b := if base0 then 10 else 16
    let p := parseDigits b 0 0 l
    if p.2 = 0 then none else some p.1

/-- Sign and magnitude of a `strto*`-style parse of `l` in base 0 or 16. -/
def strtoParts (base0 : Bool) (l : List Char) : Option (Bool × Nat) :=
  let l1 := l.dropWhile isWsChar
  let sg := readSign l1
  (magParse base0 sg.2).map (fun m => (sg.1, m))

/-- `std::stoull(s, nullptr, 0)` as `Except`: error messages are the
implementation-defined `what()` texts of the exceptions it throws.
A negative subject is negated in unsigned 64-bit arithmetic (C semantics
of `strtoull`); only the magnitude is range-checked. -/
def stoullE (s : String) : Except String Nat :=
  match strtoParts true s.data with
  | none => .error "invalid stoull argument"
  | some (neg, m) =>
    if m < 2 ^ 64 then .ok (if neg then (2 ^ 64 - m) % 2 ^ 64 else m)
    else .error "stoull argument out of range"

/-- `std::stoi(s, nullptr, base)` as `Except` (`base0 = true` for base 0,
`false` for base 16): the result must fit in a 32-bit signed `int`. -/
def stoiE (base0 : Bool) (s : String) : Except String Int :=
  match strtoParts base0 s.data with
  | none => .error "invalid stoi argument"
  | some (neg, m) =>
    let v : Int := if neg then -(m : Int) else (m : Int)
    if -(2 ^ 31 : Int) ≤ v ∧ v < 2 ^ 31 then .ok v
    else .error "stoi argument out of range"

/-- `static_cast<unsigned char>` of a C `int` value: reduce mod 256. -/
def toByte (v : Int) : Nat := (v % 256).toNat

/-- `(size_t)` cast of a C `int` value in the 64-bit build: two's
complement conversion, i.e. reduce mod `2^64`. -/
def asSizeT (v : Int) : Nat := (v % (2 ^ 64 : Int)).toNat

/-! ### `UrlDecode` (main translation unit) -/

/-- The `%XX` escape parse of `UrlDecode`:
`std::istringstream is(str.substr(i+1, 2)); is >> std::hex >> value` on the
exactly-two-character field `[c1, c2]`.  Stream extraction skips leading
whitespace, accepts an optional sign, then consumes a maximal run of hex
digits; it succeeds iff at least one digit is consumed (stopping early at
a non-digit is still success).  The value is signed. -/
def hexPairParse (c1 c2 : Char) : Option Int :=
  if digitVal c1 < 16 then
    -- first char is a hex digit; the run extends to c2 iff c2 is one too
    if digitVal c2 < 16 then some (16 * digitVal c1 + digitVal c2)
    else some (digitVal c1)
  else if isWsChar c1 then
    if digitVal c2 < 16 then some (digitVal c2) else none
  else if c1 = '+' then
    if digitVal c2 < 16 then some (digitVal c2) else none
  else if c1 = '-' then
    if digitVal c2 < 16 then some (-(digitVal c2 : Int)) else none
  else none

/-- `UrlDecode` over the character list of the input string.  A `%` with at
least two following characters (`i + 2 < str.length()`) attempts the
stream hex parse of those two characters: on success the decoded byte
(`static_cast<char>(value)`, i.e. the value mod 256) is appended and both
characters are skipped; on failure the `%` itself is appended and
scanning resumes at the next character.  `+` decodes to a space. -/
def urlDecodeList : List Char → List Char
  | [] => []
  | c :: rest =>
    if c = '%' then
      match rest with
      | c1 :: c2 :: rest2 =>
        match hexPairParse c1 c2 with
        | some v => Char.ofNat (toByte v) :: urlDecodeList rest2
        | none => '%' :: urlDecodeList (c1 :: c2 :: rest2)
      | [c1] => '%' :: urlDecodeList [c1]
      | [] => ['%']
    else if c = '+' then ' ' :: urlDecodeList rest
    else c :: urlDecodeList rest

/-- `UrlDecode` on strings. -/
def urlDecode (s : String) : String := ⟨urlDecodeList s.data⟩

/-! ### Standard percent-encoding (spec-side, for the round-trip claim)

Modelled from the spec's words: "encoding a string with reserved
characters (`%`, `+`, `&`, `=`)" with *standard* percent-encoding, i.e.
RFC 3986: unreserved characters (alphanumerics and `-`, `_`, `.`, `~`)
are copied verbatim, every other byte becomes `%` followed by its value
as two uppercase hex digits. -/

/-- Uppercase hex digit for a value `< 16`. -/
def hexUpper (n : Nat) : Char :=
  if n < 10 then Char.ofNat (48 + n) else Char.ofNat (55 + n)

/-- RFC 3986 unreserved characters. -/
def isUnreserved (c : Char) : Bool :=
  c.isAlphanum ∨ c = '-' ∨ c = '_' ∨ c = '.' ∨ c = '~'

/-- Standard percent-encoding of one byte-valued character. -/
def encodeChar (c : Char) : List Char :=
  if isUnreserved c then [c]
  else ['%', hexUpper (c.toNat / 16), hexUpper (c.toNat % 16)]

/-- Standard percent-encoding of a byte string. -/
def percentEncodeSpec (l : List Char) : List Char :=
  (l.map encodeChar).flatten

/-! ### Substring search (`std::string::find`) -/

/-- Whether `pat` occurs at the start of `l`. -/
def startsWith : List Char → List Char → Bool
  | [], _ => true
  | _ :: _, [] => false
  | p :: ps, c :: cs => p = c ∧ startsWith ps cs

/-- `std::string::find`: index of the first occurrence of `pat`, `none`
for `npos`. -/
def findSub (pat : List Char) : List Char → Option Nat
  | [] => if pat.isEmpty then some 0 else none
  | c :: rest =>
    if startsWith pat (c :: rest) then some 0
    else (findSub pat rest).map (· + 1)

/-! ### `ParseQuery` (main translation unit) -/

/-- Decoded query parameters: the `std::unordered_map` is modelled as an
association list with unique keys, built by insert-or-assign. -/
def ParamMap := List (String × String)

/-- `params.find(key)` on the modelled map. -/
def lookupParam : List (String × String) → String → Option String
  | [], _ => none
  | (k', v') :: t, k => if k' = k then some v' else lookupParam t k

/-- `params[key] = value` on an `std::unordered_map`: overwrite the entry
if the key is present, insert it otherwise. -/
def insertAssign (k v : String) : List (String × String) → List (String × String)
  | [] => [(k, v)]
  | (k', v') :: t => if k' = k then (k, v) :: t else (k', v') :: insertAssign k v t

/-- The `&`-separated segments visited by the `ParseQuery` loop: each
iteration takes the characters up to the next `&` (or the end) and resumes
one past it; the loop runs while the position is below the length, so an
empty input yields no segment and a trailing `&` yields no extra one. -/
def querySegs (l : List Char) : List (List Char) :=
  match l with
  | [] => []
  | c :: rest =>
    let seg := (c :: rest).takeWhile (fun a => a ≠ '&')
    seg :: querySegs ((c :: rest).drop (seg.length + 1))
termination_by l.length
decreasing_by simp [List.length_drop]; omega

/-- One segment of the query: split on the first `=`; both sides are
percent-decoded.  A segment without `=` produces no entry. -/
def segPair (seg : List Char) : Option (String × String) :=
  match findSub ['='] seg with
  | none => none
  | some i => some (urlDecode ⟨seg.take i⟩, urlDecode ⟨seg.drop (i + 1)⟩)

/-- `ParseQuery`: fold the segments left-to-right into the map. -/
def parseQuery (q : String) : ParamMap :=
  (querySegs q.data).foldl
    (fun m seg =>
      match segPair seg with
      | some kv => insertAssign kv.1 kv.2 m
      | none => m) []

/-! ### JSON helpers (`mcp_common.h`) -/

/-- `JsonEscape`, per character. -/
def jsonEscapeChar (c : Char) : List Char :=
  if c = '"' then ['\\', '"']
  else if c = '\\' then ['\\', '\\']
  else if c = '\n' then ['\\', 'n']
  else if c = '\r' then ['\\', 'r']
  else if c = '\t' then ['\\', 't']
  else [c]

/-- `JsonEscape`. -/
def jsonEscape (s : String) : String :=
  ⟨(s.data.map jsonEscapeChar).flatten⟩

/-- Lowercase hex digit for a value `< 16`. -/
def hexLower (n : Nat) : Char :=
  if n < 10 then Char.ofNat (48 + n) else Char.ofNat (87 + n)

/-- Hex digits of `n`, most significant first, empty for 0.  The first
argument is structural recursion fuel; it is always called with
`fuel ≥ n ≥` the digit count, so it never runs out. -/
def natHexDigitsAux : Nat → Nat → List Char → List Char
  | 0, _, acc => acc
  | _ + 1, 0, acc => acc
  | fuel + 1, n, acc => natHexDigitsAux fuel (n / 16) (hexLower (n % 16) :: acc)

/-- Hex digits of `n`, most significant first, empty for 0. -/
def natHexDigits (n : Nat) : List Char := natHexDigitsAux n n []

/-- `ToHex`: `"0x"` followed by the lowercase hex digits without leading
zeros (`std::hex` prints `0` for zero). -/
def toHex (n : Nat) : String :=
  ⟨'0' :: 'x' :: (if n = 0 then ['0'] else natHexDigits n)⟩

/-- One byte as two zero-padded lowercase hex digits
(`<< std::hex << std::setw(2) << std::setfill('0') << (int)b` for an
`unsigned char` value; the mod 256 reflects the `unsigned char` storage). -/
def byteHex (b : Nat) : List Char :=
  [hexLower (b % 256 / 16), hexLower (b % 16)]

/-- A byte buffer as a flat lowercase hex string. -/
def bytesHex (bs : List Nat) : String :=
  ⟨(bs.map byteHex).flatten⟩

/-- `BoolToJson`. -/
def boolToJson (b : Bool) : String := if b then "true" else "false"

/-! ### HTTP response (`SendResponse`) -/

/-- One HTTP response as serialized by `SendResponse`: status code,
content type and body (the headers are a fixed function of these). -/
structure Response where
  code : Nat
  contentType : String
  body : String
deriving DecidableEq, Repr

/-! ### The external engine (collaborator boundary)

`Script::*` and `Dbg*` operations are outside the repository; they are
modelled as a record of oracles.  Each oracle is a pure function of its
arguments — adequate for single-request reasoning since the server
dispatches one request at a time. -/

/-- `Script::Register::RegisterEnum`, restricted to the names
`ParseRegister` accepts (x64 build). -/
inductive Reg
  | eax | ebx | ecx | edx | esi | edi | ebp | esp | eip
  | rax | rbx | rcx | rdx | rsi | rdi | rbp | rsp | rip
  | r8 | r9 | r10 | r11 | r12 | r13 | r14 | r15
deriving DecidableEq, Repr

/-- `Script::Flag::FlagEnum` (`ofl`/`ifl` stand for `OF`/`IF`, which are
not valid Lean constructor names). -/
inductive FlagE
  | zf | ofl | cf | pf | sf | tf | af | df | ifl
deriving DecidableEq, Repr

/-- `Script::Symbol` entry type as rendered by `/symbols/list`
(`Function`/`Import`/`Export`/default). -/
inductive SymType
  | func | imp | exp | other
deriving DecidableEq, Repr

/-- `Script::Module::ModuleInfo` fields used by `/modules`. -/
structure ModuleInfoM where
  name : String
  base : Nat
  size : Nat
  entry : Nat
  path : String
deriving Repr

/-- `Script::Symbol::SymbolInfo` fields used by `/symbols/list`. -/
structure SymbolInfoM where
  mod : String
  rva : Nat
  name : String
  manual : Bool
  type : SymType
deriving Repr

/-- `Script::Label::LabelInfo` fields used by `/label/list`. -/
structure LabelInfoM where
  mod : String
  rva : Nat
  text : String
  manual : Bool
deriving Repr

/-- `Script::Comment::CommentInfo` fields used by `/comment/list`. -/
structure CommentInfoM where
  mod : String
  rva : Nat
  text : String
  manual : Bool
deriving Repr

/-- `Script::Function::FunctionInfo` fields used by `/function/list`. -/
structure FunctionInfoM where
  mod : String
  rvaStart : Nat
  rvaEnd : Nat
  manual : Bool
  instructioncount : Nat
deriving Repr

/-- `Script::Bookmark::BookmarkInfo` fields used by `/bookmark/list`. -/
structure BookmarkInfoM where
  mod : String
  rva : Nat
  manual : Bool
deriving Repr

/-- The external engine as an oracle record.  `Option` models the boolean
success of calls with list/buffer out-parameters; pairs bundle a success
boolean with out-parameters. -/
structure Engine where
  dbgIsDebugging : Bool
  dbgIsRunning : Bool
  cmdExec : String → Bool
  regGet : Reg → Nat
  regSet : Reg → Nat → Bool
  /-- `Script::Memory::Read`: `some bytes` on success (`bytesRead` is the
  length), `none` on failure. -/
  memRead : Nat → Nat → Option (List Nat)
  /-- `Script::Memory::Write`: success flag and `bytesWritten`. -/
  memWrite : Nat → List Nat → Bool × Nat
  findMem : Nat → Nat → String → Nat
  searchReplaceMem : Nat → Nat → String → String → Bool
  setBreakpoint : Nat → Bool
  deleteBreakpoint : Nat → Bool
  /-- `DbgDisasmAt`: instruction text and `instr_size`. -/
  disasmAt : Nat → String × Nat
  moduleList : Option (List ModuleInfoM)
  symbolList : Option (List SymbolInfoM)
  labelSet : Nat → String → Bool → Bool → Bool
  /-- `Script::Label::Get`: success flag and the text written into the
  out-buffer (empty when untouched). -/
  labelGet : Nat → Bool × String
  labelDelete : Nat → Bool
  /-- `Script::Label::FromString`: success flag and out-address. -/
  labelFromString : String → Bool × Nat
  labelList : Option (List LabelInfoM)
  commentSet : Nat → String → Bool → Bool
  commentGet : Nat → Bool × String
  commentDelete : Nat → Bool
  commentList : Option (List CommentInfoM)
  stackPush : Nat → Nat
  stackPop : Nat
  stackPeek : Int → Nat
  functionAdd : Nat → Nat → Bool → Nat → Bool
  /-- `Script::Function::Get`: success flag, start, end, instruction
  count (out-parameters keep their zero initialisation on failure). -/
  functionGet : Nat → Bool × Nat × Nat × Nat
  functionDelete : Nat → Bool
  functionList : Option (List FunctionInfoM)
  bookmarkSet : Nat → Bool → Bool
  bookmarkGet : Nat → Bool
  bookmarkDelete : Nat → Bool
  bookmarkList : Option (List BookmarkInfoM)
  /-- `Script::Misc::ParseExpression`: success flag and out-value. -/
  parseExpr : String → Bool × Nat
  resolveLabel : String → Nat
  remoteGetProcAddress : String → String → Nat
  assembleMem : Nat → String → Bool
  /-- `Script::Assembler::Assemble`: success flag and the `size`-prefix
  of the 16-byte `dest` buffer (`size = bytes.length`). -/
  assemble : Nat → String → Bool × List Nat
  flagGet : FlagE → Bool
  flagSet : FlagE → Bool → Bool
  debugRun : Unit
  debugPause : Unit
  debugStepIn : Unit
  debugStepOver : Unit
  debugStepOut : Unit

/-- A logged invocation of one external engine operation. -/
inductive EngineCall
  | dbgIsDebugging
  | dbgIsRunning
  | cmdExec (cmd : String)
  | regGet (r : Reg)
  | regSet (r : Reg) (v : Nat)
  | memRead (addr size : Nat)
  | memWrite (addr : Nat) (data : List Nat)
  | findMem (start size : Nat) (pat : String)
  | searchReplaceMem (start size : Nat) (search replace : String)
  | setBreakpoint (addr : Nat)
  | deleteBreakpoint (addr : Nat)
  | disasmAt (addr : Nat)
  | moduleList
  | symbolList
  | labelSet (addr : Nat) (text : String) (manual temporary : Bool)
  | labelGet (addr : Nat)
  | labelDelete (addr : Nat)
  | labelFromString (label : String)
  | labelList
  | commentSet (addr : Nat) (text : String) (manual : Bool)
  | commentGet (addr : Nat)
  | commentDelete (addr : Nat)
  | commentList
  | stackPush (v : Nat)
  | stackPop
  | stackPeek (offset : Int)
  | functionAdd (start stop : Nat) (manual : Bool) (icount : Nat)
  | functionGet (addr : Nat)
  | functionDelete (addr : Nat)
  | functionList
  | bookmarkSet (addr : Nat) (manual : Bool)
  | bookmarkGet (addr : Nat)
  | bookmarkDelete (addr : Nat)
  | bookmarkList
  | parseExpr (e : String)
  | resolveLabel (l : String)
  | remoteGetProcAddress (m a : String)
  | assembleMem (addr : Nat) (instr : String)
  | assemble (addr : Nat) (instr : String)
  | flagGet (f : FlagE)
  | flagSet (f : FlagE) (v : Bool)
  | debugRun
  | debugPause
  | debugStepIn
  | debugStepOver
  | debugStepOut
deriving DecidableEq, Repr

/-! ### Parameter extraction (`mcp_common.h`) -/

/-- `GetParam`: presence lookup. -/
def getParam (params : ParamMap) (key : String) : Option String :=
  lookupParam params key

/-- `GetParamAddr`: present and `std::stoull(value, nullptr, 0)` does not
throw.  `some` carries the value the out-parameter receives. -/
def getParamAddr (params : ParamMap) (key : String) : Option Nat :=
  match getParam params key with
  | none => none
  | some v => (stoullE v).toOption

/-- `GetParamInt`: present and `std::stoi(value, nullptr, 0)` does not
throw. -/
def getParamInt (params : ParamMap) (key : String) : Option Int :=
  match getParam params key with
  | none => none
  | some v => (stoiE true v).toOption

/-- `GetParamInt` in default-initialised out-parameter style: callers that
ignore the return value keep `dflt` when the key is absent or the parse
fails. -/
def getParamIntD (params : ParamMap) (key : String) (dflt : Int) : Int :=
  (getParamInt params key).getD dflt

/-- `GetParamBool`: the first component is the return value (presence),
the second the out-parameter after the call (`out` is untouched when the
key is absent). -/
def getParamBool (params : ParamMap) (key : String) (out : Bool) : Bool × Bool :=
  match getParam params key with
  | none => (false, out)
  | some v => (true, v = "true" ∨ v = "1" ∨ v = "yes")

/-! ### `ParseRegister` and `ParseFlag` -/

/-- `ParseRegister` (x64 build): lower-cases the name and matches it
against the known registers; returns the error message on failure
(the C++ returns `""` on success and a non-empty message otherwise). -/
def parseRegister (name : String) : Except String Reg :=
  let lower := strLower name
  if lower = "eax" then .ok .eax
  else if lower = "ebx" then .ok .ebx
  else if lower = "ecx" then .ok .ecx
  else if lower = "edx" then .ok .edx
  else if lower = "esi" then .ok .esi
  else if lower = "edi" then .ok .edi
  else if lower = "ebp" then .ok .ebp
  else if lower = "esp" then .ok .esp
  else if lower = "eip" then .ok .eip
  else if lower = "rax" then .ok .rax
  else if lower = "rbx" then .ok .rbx
  else if lower = "rcx" then .ok .rcx
  else if lower = "rdx" then .ok .rdx
  else if lower = "rsi" then .ok .rsi
  else if lower = "rdi" then .ok .rdi
  else if lower = "rbp" then .ok .rbp
  else if lower = "rsp" then .ok .rsp
  else if lower = "rip" then .ok .rip
  else if lower = "r8" then .ok .r8
  else if lower = "r9" then .ok .r9
  else if lower = "r10" then .ok .r10
  else if lower = "r11" then .ok .r11
  else if lower = "r12" then .ok .r12
  else if lower = "r13" then .ok .r13
  else if lower = "r14" then .ok .r14
  else if lower = "r15" then .ok .r15
  else .error ("Unknown register: " ++ name)

/-- `ParseFlag` (flag handler header). -/
def parseFlag (name : String) : Option FlagE :=
  let lower := strLower name
  if lower = "zf" then some .zf
  else if lower = "of" then some .ofl
  else if lower = "cf" then some .cf
  else if lower = "pf" then some .pf
  else if lower = "sf" then some .sf
  else if lower = "tf" then some .tf
  else if lower = "af" then some .af
  else if lower = "df" then some .df
  else if lower = "if" then some .ifl
  else none

/-! ### Capability handlers

Each handler returns the list of engine calls it performed and the list
of responses it wrote via `SendResponse`, in order.  Handlers that use the
raw `std::stoull`/`std::stoi` (the inline dispatcher branches) can throw;
they return `Except String _` whose `error` carries `e.what()` for the
top-level boundary.  In every such handler the throw happens before any
engine call and before any response is written. -/

/-- Result of one handler: engine calls performed and responses written. -/
abbrev HResult := List EngineCall × List Response

/-- Result of a handler that may throw. -/
abbrev HResultE := Except String HResult

/-- Shorthand for a `Response` record. -/
def resp (code : Nat) (ct body : String) : Response := ⟨code, ct, body⟩

/-- `/status` branch of `HandleRequest`. -/
def handleStatus (eng : Engine) (_params : ParamMap) : HResult :=
  ([.dbgIsDebugging, .dbgIsRunning],
   [resp 200 "application/json"
     ("\x7b\"version\":3,\"arch\":\"x64\",\"debugging\":" ++
      boolToJson eng.dbgIsDebugging ++ ",\"running\":" ++
      boolToJson eng.dbgIsRunning ++ "\x7d")])

/-- `/cmd` branch of `HandleRequest`. -/
def handleCmd (eng : Engine) (params : ParamMap) : HResult :=
  match getParam params "cmd" with
  | none => ([], [resp 400 "text/plain" "Missing 'cmd' parameter"])
  | some cmd =>
    ([.cmdExec cmd],
     [resp 200 "application/json"
       ("\x7b\"success\":" ++ boolToJson (eng.cmdExec cmd) ++
        ",\"command\":\"" ++ jsonEscape cmd ++ "\"\x7d")])

/-- `/register/get` branch of `HandleRequest`. -/
def handleRegisterGet (eng : Engine) (params : ParamMap) : HResult :=
  match getParam params "name" with
  | none => ([], [resp 400 "text/plain" "Missing 'name' parameter"])
  | some name =>
    match parseRegister name with
    | .error err => ([], [resp 400 "text/plain" err])
    | .ok reg =>
      ([.regGet reg],
       [resp 200 "application/json"
         ("\x7b\"register\":\"" ++ name ++ "\",\"value\":\"" ++
          toHex (eng.regGet reg) ++ "\"\x7d")])

/-- `/register/set` branch of `HandleRequest` (raw `stoull` may throw). -/
def handleRegisterSet (eng : Engine) (params : ParamMap) : HResultE :=
  match getParam params "name", getParam params "value" with
  | some name, some value =>
    match parseRegister name with
    | .error err => .ok ([], [resp 400 "text/plain" err])
    | .ok reg =>
      match stoullE value with
      | .error m => .error m
      | .ok v =>
        .ok ([.regSet reg v],
          [resp 200 "application/json"
            ("\x7b\"success\":" ++ boolToJson (eng.regSet reg v) ++ "\x7d")])
  | _, _ => .ok ([], [resp 400 "text/plain" "Missing 'name' or 'value' parameter"])

/-- `/memory/read` branch of `HandleRequest` (raw `stoull` may throw). -/
def handleMemoryRead (eng : Engine) (params : ParamMap) : HResultE :=
  match getParam params "addr", getParam params "size" with
  | some addrV, some sizeV =>
    match stoullE addrV with
    | .error m => .error m
    | .ok addr =>
      match stoullE sizeV with
      | .error m => .error m
      | .ok size =>
        if size > 1024 * 1024 then
          .ok ([], [resp 400 "text/plain" "Size too large (max 1MB)"])
        else
          match eng.memRead addr size with
          | none => .ok ([.memRead addr size], [resp 500 "text/plain" "Failed to read memory"])
          | some bytes =>
            .ok ([.memRead addr size],
              [resp 200 "application/json"
                ("\x7b\"address\":\"" ++ toHex addr ++ "\",\"size\":" ++
                 toString bytes.length ++ ",\"data\":\"" ++ bytesHex bytes ++ "\"\x7d")])
  | _, _ => .ok ([], [resp 400 "text/plain" "Missing 'addr' or 'size' parameter"])

/-- The `/memory/write` hex-decoding loop: two characters per byte via
`std::stoi(substr(i, 2), nullptr, 16)` (which may throw), a dangling odd
final character is skipped (`i + 1 >= length` breaks). -/
def hexPairsDecode : List Char → Except String (List Nat)
  | c1 :: c2 :: rest =>
    match stoiE false ⟨[c1, c2]⟩ with
    | .error m => .error m
    | .ok v => (hexPairsDecode rest).map (fun bs => toByte v :: bs)
  | _ => .ok []

/-- `/memory/write` branch of `HandleRequest` (raw `stoull`/`stoi` may
throw). -/
def handleMemoryWrite (eng : Engine) (params : ParamMap) : HResultE :=
  match getParam params "addr", getParam params "data" with
  | some addrV, some dataV =>
    match stoullE addrV with
    | .error m => .error m
    | .ok addr =>
      match hexPairsDecode dataV.data with
      | .error m => .error m
      | .ok buf =>
        .ok ([.memWrite addr buf],
          [resp 200 "application/json"
            ("\x7b\"success\":" ++ boolToJson (eng.memWrite addr buf).1 ++
             ",\"bytes_written\":" ++ toString (eng.memWrite addr buf).2 ++ "\x7d")])
  | _, _ => .ok ([], [resp 400 "text/plain" "Missing 'addr' or 'data' parameter"])

/-- `HandleFindMem` (`/pattern/find_mem`). -/
def handleFindMem (eng : Engine) (params : ParamMap) : HResult :=
  match getParamAddr params "start", getParamAddr params "size",
        getParam params "pattern" with
  | some start, some size, some pat =>
    ([.findMem start size pat],
     [resp 200 "application/json"
       ("\x7b\"found\":" ++ boolToJson (eng.findMem start size pat != 0) ++
        ",\"address\":\"" ++ toHex (eng.findMem start size pat) ++ "\"\x7d")])
  | _, _, _ =>
    ([], [resp 400 "text/plain" "Missing 'start', 'size', or 'pattern' parameter"])

/-- `HandleSearchReplaceMem` (`/pattern/search_replace_mem`). -/
def handleSearchReplaceMem (eng : Engine) (params : ParamMap) : HResult :=
  match getParamAddr params "start", getParamAddr params "size",
        getParam params "search", getParam params "replace" with
  | some start, some size, some search, some repl =>
    ([.searchReplaceMem start size search repl],
     [resp 200 "application/json"
       ("\x7b\"success\":" ++ boolToJson (eng.searchReplaceMem start size search repl) ++ "\x7d")])
  | _, _, _, _ =>
    ([], [resp 400 "text/plain" "Missing 'start', 'size', 'search', or 'replace' parameter"])

/-- JSON array elements for a list of addresses (`"0x.."` strings). -/
def hexListJson (l : List Nat) : String :=
  String.intercalate "," (l.map (fun a => "\"" ++ toHex a ++ "\""))

/-- The `HandleMemorySearch` while-loop.  The fuel is
`(size_t)maxResults - results.size()`: the loop runs while
`searchAddr < endAddr && results.size() < (size_t)maxResults` and each
iteration pushes exactly one result or breaks.  `duint` increments wrap
mod `2^64`. -/
def searchLoop (eng : Engine) (pat : String) (endAddr : Nat) :
    Nat → Nat → List EngineCall × List Nat
  | 0, _ => ([], [])
  | fuel + 1, searchAddr =>
    if searchAddr < endAddr then
      let found := eng.findMem searchAddr (endAddr - searchAddr) pat
      if found = 0 then ([.findMem searchAddr (endAddr - searchAddr) pat], [])
      else
        let r := searchLoop eng pat endAddr fuel ((found + 1) % 2 ^ 64)
        (.findMem searchAddr (endAddr - searchAddr) pat :: r.1, found :: r.2)
    else ([], [])

/-- `HandleMemorySearch` (`/memory/search`).  `maxResults` defaults to
100; `endAddr = start + size` is `duint` arithmetic (mod `2^64`). -/
def handleMemorySearch (eng : Engine) (params : ParamMap) : HResult :=
  match getParamAddr params "start", getParamAddr params "size",
        getParam params "pattern" with
  | some start, some size, some pat =>
    let maxResults : Int := getParamIntD params "max" 100
    let endAddr := (start + size) % 2 ^ 64
    let r := searchLoop eng pat endAddr (asSizeT maxResults) start
    (r.1,
     [resp 200 "application/json"
       ("\x7b\"count\":" ++ toString r.2.length ++ ",\"results\":[" ++
        hexListJson r.2 ++ "]\x7d")])
  | _, _, _ =>
    ([], [resp 400 "text/plain" "Missing 'start', 'size', or 'pattern' parameter"])

/-- `/debug/run` branch. -/
def handleDebugRun (_eng : Engine) (_params : ParamMap) : HResult :=
  ([.debugRun], [resp 200 "application/json" "\x7b\"success\":true\x7d"])

/-- `/debug/pause` branch. -/
def handleDebugPause (_eng : Engine) (_params : ParamMap) : HResult :=
  ([.debugPause], [resp 200 "application/json" "\x7b\"success\":true\x7d"])

/-- `/debug/step` branch. -/
def handleDebugStep (_eng : Engine) (_params : ParamMap) : HResult :=
  ([.debugStepIn], [resp 200 "application/json" "\x7b\"success\":true\x7d"])

/-- `/debug/stepover` branch. -/
def handleDebugStepOver (_eng : Engine) (_params : ParamMap) : HResult :=
  ([.debugStepOver], [resp 200 "application/json" "\x7b\"success\":true\x7d"])

/-- `/debug/stepout` branch. -/
def handleDebugStepOut (_eng : Engine) (_params : ParamMap) : HResult :=
  ([.debugStepOut], [resp 200 "application/json" "\x7b\"success\":true\x7d"])

/-- `/breakpoint/set` branch of `HandleRequest` (raw `stoull` may throw). -/
def handleBreakpointSet (eng : Engine) (params : ParamMap) : HResultE :=
  match getParam params "addr" with
  | none => .ok ([], [resp 400 "text/plain" "Missing 'addr' parameter"])
  | some addrV =>
    match stoullE addrV with
    | .error m => .error m
    | .ok addr =>
      .ok ([.setBreakpoint addr],
        [resp 200 "application/json"
          ("\x7b\"success\":" ++ boolToJson (eng.setBreakpoint addr) ++ "\x7d")])

/-- `/breakpoint/delete` branch of `HandleRequest` (raw `stoull` may
throw). -/
def handleBreakpointDelete (eng : Engine) (params : ParamMap) : HResultE :=
  match getParam params "addr" with
  | none => .ok ([], [resp 400 "text/plain" "Missing 'addr' parameter"])
  | some addrV =>
    match stoullE addrV with
    | .error m => .error m
    | .ok addr =>
      .ok ([.deleteBreakpoint addr],
        [resp 200 "application/json"
          ("\x7b\"success\":" ++ boolToJson (eng.deleteBreakpoint addr) ++ "\x7d")])

/-- `/disasm` branch of `HandleRequest` (raw `stoull` may throw). -/
def handleDisasm (eng : Engine) (params : ParamMap) : HResultE :=
  match getParam params "addr" with
  | none => .ok ([], [resp 400 "text/plain" "Missing 'addr' parameter"])
  | some addrV =>
    match stoullE addrV with
    | .error m => .error m
    | .ok addr =>
      .ok ([.disasmAt addr],
        [resp 200 "application/json"
          ("\x7b\"address\":\"" ++ toHex addr ++ "\",\"instruction\":\"" ++
           jsonEscape (eng.disasmAt addr).1 ++ "\",\"size\":" ++
           toString (eng.disasmAt addr).2 ++ "\x7d")])

/-- One `/modules` array element. -/
def moduleJson (m : ModuleInfoM) : String :=
  "\x7b\"name\":\"" ++ jsonEscape m.name ++ "\",\"base\":\"" ++ toHex m.base ++
  "\",\"size\":\"" ++ toHex m.size ++ "\",\"entry\":\"" ++ toHex m.entry ++
  "\",\"path\":\"" ++ jsonEscape m.path ++ "\"\x7d"

/-- `/modules` branch of `HandleRequest`. -/
def handleModules (eng : Engine) (_params : ParamMap) : HResult :=
  match eng.moduleList with
  | none => ([.moduleList], [resp 500 "text/plain" "Failed to get module list"])
  | some mods =>
    ([.moduleList],
     [resp 200 "application/json"
       ("[" ++ String.intercalate "," (mods.map moduleJson) ++ "]")])

/-- One `/symbols/list` array element (the `switch` on the type). -/
def symbolJson (s : SymbolInfoM) : String :=
  "\x7b\"module\":\"" ++ jsonEscape s.mod ++ "\",\"rva\":\"" ++ toHex s.rva ++
  "\",\"name\":\"" ++ jsonEscape s.name ++ "\",\"manual\":" ++
  boolToJson s.manual ++ ",\"type\":\"" ++
  (match s.type with
   | .func => "function"
   | .imp => "import"
   | .exp => "export"
   | .other => "unknown") ++ "\"\x7d"

/-- `HandleSymbolsList` (`/symbols/list`). -/
def handleSymbolsList (eng : Engine) (_params : ParamMap) : HResult :=
  match eng.symbolList with
  | none => ([.symbolList], [resp 500 "text/plain" "Failed to get symbol list"])
  | some syms =>
    ([.symbolList],
     [resp 200 "application/json"
       ("[" ++ String.intercalate "," (syms.map symbolJson) ++ "]")])

/-- `HandleLabelSet` (`/label/set`; the final `false` is "not
temporary"). -/
def handleLabelSet (eng : Engine) (params : ParamMap) : HResult :=
  match getParamAddr params "addr", getParam params "text" with
  | some addr, some text =>
    let manual := (getParamBool params "manual" false).2
    ([.labelSet addr text manual false],
     [resp 200 "application/json"
       ("\x7b\"success\":" ++ boolToJson (eng.labelSet addr text manual false) ++ "\x7d")])
  | _, _ => ([], [resp 400 "text/plain" "Missing 'addr' or 'text' parameter"])

/-- `HandleLabelGet` (`/label/get`). -/
def handleLabelGet (eng : Engine) (params : ParamMap) : HResult :=
  match getParamAddr params "addr" with
  | none => ([], [resp 400 "text/plain" "Missing 'addr' parameter"])
  | some addr =>
    ([.labelGet addr],
     [resp 200 "application/json"
       ("\x7b\"success\":" ++ boolToJson (eng.labelGet addr).1 ++
        ",\"text\":\"" ++ jsonEscape (eng.labelGet addr).2 ++ "\"\x7d")])

/-- `HandleLabelDelete` (`/label/delete`). -/
def handleLabelDelete (eng : Engine) (params : ParamMap) : HResult :=
  match getParamAddr params "addr" with
  | none => ([], [resp 400 "text/plain" "Missing 'addr' parameter"])
  | some addr =>
    ([.labelDelete addr],
     [resp 200 "application/json"
       ("\x7b\"success\":" ++ boolToJson (eng.labelDelete addr) ++ "\x7d")])

/-- `HandleLabelFromString` (`/label/from_string`). -/
def handleLabelFromString (eng : Engine) (params : ParamMap) : HResult :=
  match getParam params "label" with
  | none => ([], [resp 400 "text/plain" "Missing 'label' parameter"])
  | some label =>
    ([.labelFromString label],
     [resp 200 "application/json"
       ("\x7b\"success\":" ++ boolToJson (eng.labelFromString label).1 ++
        ",\"address\":\"" ++ toHex (eng.labelFromString label).2 ++ "\"\x7d")])

/-- One `/label/list` array element. -/
def labelJson (l : LabelInfoM) : String :=
  "\x7b\"module\":\"" ++ jsonEscape l.mod ++ "\",\"rva\":\"" ++ toHex l.rva ++
  "\",\"text\":\"" ++ jsonEscape l.text ++ "\",\"manual\":" ++
  boolToJson l.manual ++ "\x7d"

/-- `HandleLabelList` (`/label/list`). -/
def handleLabelList (eng : Engine) (_params : ParamMap) : HResult :=
  match eng.labelList with
  | none => ([.labelList], [resp 500 "text/plain" "Failed to get label list"])
  | some ls =>
    ([.labelList],
     [resp 200 "application/json"
       ("[" ++ String.intercalate "," (ls.map labelJson) ++ "]")])

/-- `HandleCommentSet` (`/comment/set`). -/
def handleCommentSet (eng : Engine) (params : ParamMap) : HResult :=
  match getParamAddr params "addr", getParam params "text" with
  | some addr, some text =>
    let manual := (getParamBool params "manual" false).2
    ([.commentSet addr text manual],
     [resp 200 "application/json"
       ("\x7b\"success\":" ++ boolToJson (eng.commentSet addr text manual) ++ "\x7d")])
  | _, _ => ([], [resp 400 "text/plain" "Missing 'addr' or 'text' parameter"])

/-- `HandleCommentGet` (`/comment/get`). -/
def handleCommentGet (eng : Engine) (params : ParamMap) : HResult :=
  match getParamAddr params "addr" with
  | none => ([], [resp 400 "text/plain" "Missing 'addr' parameter"])
  | some addr =>
    ([.commentGet addr],
     [resp 200 "application/json"
       ("\x7b\"success\":" ++ boolToJson (eng.commentGet addr).1 ++
        ",\"text\":\"" ++ jsonEscape (eng.commentGet addr).2 ++ "\"\x7d")])

/-- `HandleCommentDelete` (`/comment/delete`). -/
def handleCommentDelete (eng : Engine) (params : ParamMap) : HResult :=
  match getParamAddr params "addr" with
  | none => ([], [resp 400 "text/plain" "Missing 'addr' parameter"])
  | some addr =>
    ([.commentDelete addr],
     [resp 200 "application/json"
       ("\x7b\"success\":" ++ boolToJson (eng.commentDelete addr) ++ "\x7d")])

/-- One `/comment/list` array element. -/
def commentJson (c : CommentInfoM) : String :=
  "\x7b\"module\":\"" ++ jsonEscape c.mod ++ "\",\"rva\":\"" ++ toHex c.rva ++
  "\",\"text\":\"" ++ jsonEscape c.text ++ "\",\"manual\":" ++
  boolToJson c.manual ++ "\x7d"

/-- `HandleCommentList` (`/comment/list`). -/
def handleCommentList (eng : Engine) (_params : ParamMap) : HResult :=
  match eng.commentList with
  | none => ([.commentList], [resp 500 "text/plain" "Failed to get comment list"])
  | some cs =>
    ([.commentList],
     [resp 200 "application/json"
       ("[" ++ String.intercalate "," (cs.map commentJson) ++ "]")])

/-- `HandleStackPush` (`/stack/push`). -/
def handleStackPush (eng : Engine) (params : ParamMap) : HResult :=
  match getParamAddr params "value" with
  | none => ([], [resp 400 "text/plain" "Missing 'value' parameter"])
  | some v =>
    ([.stackPush v],
     [resp 200 "application/json"
       ("\x7b\"success\":true,\"previous_top\":\"" ++ toHex (eng.stackPush v) ++ "\"\x7d")])

/-- `HandleStackPop` (`/stack/pop`). -/
def handleStackPop (eng : Engine) (_params : ParamMap) : HResult :=
  ([.stackPop],
   [resp 200 "application/json"
     ("\x7b\"success\":true,\"value\":\"" ++ toHex eng.stackPop ++ "\"\x7d")])

/-- `HandleStackPeek` (`/stack/peek`; `offset` defaults to 0). -/
def handleStackPeek (eng : Engine) (params : ParamMap) : HResult :=
  let offset := getParamIntD params "offset" 0
  ([.stackPeek offset],
   [resp 200 "application/json"
     ("\x7b\"success\":true,\"offset\":" ++ toString offset ++
      ",\"value\":\"" ++ toHex (eng.stackPeek offset) ++ "\"\x7d")])

/-- `HandleFunctionAdd` (`/function/add`; the instruction count is an
`int` cast to `duint`). -/
def handleFunctionAdd (eng : Engine) (params : ParamMap) : HResult :=
  match getParamAddr params "start", getParamAddr params "end" with
  | some start, some stop =>
    let manual := (getParamBool params "manual" false).2
    let icount := getParamIntD params "instruction_count" 0
    ([.functionAdd start stop manual (asSizeT icount)],
     [resp 200 "application/json"
       ("\x7b\"success\":" ++
        boolToJson (eng.functionAdd start stop manual (asSizeT icount)) ++ "\x7d")])
  | _, _ => ([], [resp 400 "text/plain" "Missing 'start' or 'end' parameter"])

/-- `HandleFunctionGet` (`/function/get`). -/
def handleFunctionGet (eng : Engine) (params : ParamMap) : HResult :=
  match getParamAddr params "addr" with
  | none => ([], [resp 400 "text/plain" "Missing 'addr' parameter"])
  | some addr =>
    let r := eng.functionGet addr
    ([.functionGet addr],
     [resp 200 "application/json"
       ("\x7b\"success\":" ++ boolToJson r.1 ++ ",\"start\":\"" ++ toHex r.2.1 ++
        "\",\"end\":\"" ++ toHex r.2.2.1 ++ "\",\"instruction_count\":" ++
        toString r.2.2.2 ++ "\x7d")])

/-- `HandleFunctionDelete` (`/function/delete`). -/
def handleFunctionDelete (eng : Engine) (params : ParamMap) : HResult :=
  match getParamAddr params "addr" with
  | none => ([], [resp 400 "text/plain" "Missing 'addr' parameter"])
  | some addr =>
    ([.functionDelete addr],
     [resp 200 "application/json"
       ("\x7b\"success\":" ++ boolToJson (eng.functionDelete addr) ++ "\x7d")])

/-- One `/function/list` array element. -/
def functionJson (f : FunctionInfoM) : String :=
  "\x7b\"module\":\"" ++ jsonEscape f.mod ++ "\",\"rva_start\":\"" ++
  toHex f.rvaStart ++ "\",\"rva_end\":\"" ++ toHex f.rvaEnd ++
  "\",\"manual\":" ++ boolToJson f.manual ++ ",\"instruction_count\":" ++
  toString f.instructioncount ++ "\x7d"

/-- `HandleFunctionList` (`/function/list`). -/
def handleFunctionList (eng : Engine) (_params : ParamMap) : HResult :=
  match eng.functionList with
  | none => ([.functionList], [resp 500 "text/plain" "Failed to get function list"])
  | some fs =>
    ([.functionList],
     [resp 200 "application/json"
       ("[" ++ String.intercalate "," (fs.map functionJson) ++ "]")])

/-- `HandleBookmarkSet` (`/bookmark/set`). -/
def handleBookmarkSet (eng : Engine) (params : ParamMap) : HResult :=
  match getParamAddr params "addr" with
  | none => ([], [resp 400 "text/plain" "Missing 'addr' parameter"])
  | some addr =>
    let manual := (getParamBool params "manual" false).2
    ([.bookmarkSet addr manual],
     [resp 200 "application/json"
       ("\x7b\"success\":" ++ boolToJson (eng.bookmarkSet addr manual) ++ "\x7d")])

/-- `HandleBookmarkGet` (`/bookmark/get`). -/
def handleBookmarkGet (eng : Engine) (params : ParamMap) : HResult :=
  match getParamAddr params "addr" with
  | none => ([], [resp 400 "text/plain" "Missing 'addr' parameter"])
  | some addr =>
    ([.bookmarkGet addr],
     [resp 200 "application/json"
       ("\x7b\"exists\":" ++ boolToJson (eng.bookmarkGet addr) ++ "\x7d")])

/-- `HandleBookmarkDelete` (`/bookmark/delete`). -/
def handleBookmarkDelete (eng : Engine) (params : ParamMap) : HResult :=
  match getParamAddr params "addr" with
  | none => ([], [resp 400 "text/plain" "Missing 'addr' parameter"])
  | some addr =>
    ([.bookmarkDelete addr],
     [resp 200 "application/json"
       ("\x7b\"success\":" ++ boolToJson (eng.bookmarkDelete addr) ++ "\x7d")])

/-- One `/bookmark/list` array element. -/
def bookmarkJson (b : BookmarkInfoM) : String :=
  "\x7b\"module\":\"" ++ jsonEscape b.mod ++ "\",\"rva\":\"" ++ toHex b.rva ++
  "\",\"manual\":" ++ boolToJson b.manual ++ "\x7d"

/-- `HandleBookmarkList` (`/bookmark/list`). -/
def handleBookmarkList (eng : Engine) (_params : ParamMap) : HResult :=
  match eng.bookmarkList with
  | none => ([.bookmarkList], [resp 500 "text/plain" "Failed to get bookmark list"])
  | some bs =>
    ([.bookmarkList],
     [resp 200 "application/json"
       ("[" ++ String.intercalate "," (bs.map bookmarkJson) ++ "]")])

/-- `HandleParseExpression` (`/misc/parse_expression`). -/
def handleParseExpression (eng : Engine) (params : ParamMap) : HResult :=
  match getParam params "expr" with
  | none => ([], [resp 400 "text/plain" "Missing 'expr' parameter"])
  | some expr =>
    ([.parseExpr expr],
     [resp 200 "application/json"
       ("\x7b\"success\":" ++ boolToJson (eng.parseExpr expr).1 ++
        ",\"expression\":\"" ++ jsonEscape expr ++ "\",\"value\":\"" ++
        toHex (eng.parseExpr expr).2 ++ "\"\x7d")])

/-- `HandleResolveLabel` (`/misc/resolve_label`). -/
def handleResolveLabel (eng : Engine) (params : ParamMap) : HResult :=
  match getParam params "label" with
  | none => ([], [resp 400 "text/plain" "Missing 'label' parameter"])
  | some label =>
    ([.resolveLabel label],
     [resp 200 "application/json"
       ("\x7b\"success\":" ++ boolToJson (eng.resolveLabel label != 0) ++
        ",\"label\":\"" ++ jsonEscape label ++ "\",\"address\":\"" ++
        toHex (eng.resolveLabel label) ++ "\"\x7d")])

/-- `HandleGetProcAddress` (`/misc/get_proc_address`). -/
def handleGetProcAddress (eng : Engine) (params : ParamMap) : HResult :=
  match getParam params "module", getParam params "api" with
  | some m, some a =>
    ([.remoteGetProcAddress m a],
     [resp 200 "application/json"
       ("\x7b\"success\":" ++ boolToJson (eng.remoteGetProcAddress m a != 0) ++
        ",\"module\":\"" ++ jsonEscape m ++ "\",\"api\":\"" ++ jsonEscape a ++
        "\",\"address\":\"" ++ toHex (eng.remoteGetProcAddress m a) ++ "\"\x7d")])
  | _, _ => ([], [resp 400 "text/plain" "Missing 'module' or 'api' parameter"])

/-- `HandleAssemble` (`/assembler/assemble`). -/
def handleAssemble (eng : Engine) (params : ParamMap) : HResult :=
  match getParamAddr params "addr", getParam params "instruction" with
  | some addr, some instr =>
    let r := eng.assemble addr instr
    ([.assemble addr instr],
     [resp 200 "application/json"
       ("\x7b\"success\":" ++ boolToJson r.1 ++ ",\"size\":" ++
        toString r.2.length ++ ",\"bytes\":\"" ++ bytesHex r.2 ++ "\"\x7d")])
  | _, _ => ([], [resp 400 "text/plain" "Missing 'addr' or 'instruction' parameter"])

/-- `HandleAssembleMem` (`/assembler/assemble_mem`). -/
def handleAssembleMem (eng : Engine) (params : ParamMap) : HResult :=
  match getParamAddr params "addr", getParam params "instruction" with
  | some addr, some instr =>
    ([.assembleMem addr instr],
     [resp 200 "application/json"
       ("\x7b\"success\":" ++ boolToJson (eng.assembleMem addr instr) ++ "\x7d")])
  | _, _ => ([], [resp 400 "text/plain" "Missing 'addr' or 'instruction' parameter"])

/-- `HandleFlagGet` (`/flag/get`). -/
def handleFlagGet (eng : Engine) (params : ParamMap) : HResult :=
  match getParam params "flag" with
  | none => ([], [resp 400 "text/plain" "Missing 'flag' parameter"])
  | some flagName =>
    match parseFlag flagName with
    | none =>
      ([], [resp 400 "text/plain"
        "Invalid flag name (use: ZF, OF, CF, PF, SF, TF, AF, DF, IF)"])
    | some f =>
      ([.flagGet f],
       [resp 200 "application/json"
         ("\x7b\"flag\":\"" ++ flagName ++ "\",\"value\":" ++
          boolToJson (eng.flagGet f) ++ "\x7d")])

/-- `HandleFlagSet` (`/flag/set`; `value` is a required boolean). -/
def handleFlagSet (eng : Engine) (params : ParamMap) : HResult :=
  match getParam params "flag", getParamBool params "value" false with
  | some flagName, (true, value) =>
    (match parseFlag flagName with
     | none =>
       ([], [resp 400 "text/plain"
         "Invalid flag name (use: ZF, OF, CF, PF, SF, TF, AF, DF, IF)"])
     | some f =>
       ([.flagSet f value],
        [resp 200 "application/json"
          ("\x7b\"success\":" ++ boolToJson (eng.flagSet f value) ++ "\x7d")]))
  | _, _ => ([], [resp 400 "text/plain" "Missing 'flag' or 'value' parameter"])

/-- `HandleFlagsGetAll` (`/flags/get_all`; `GetZF()` … are the SDK's
per-flag wrappers of the flag read). -/
def handleFlagsGetAll (eng : Engine) (_params : ParamMap) : HResult :=
  ([.flagGet .zf, .flagGet .ofl, .flagGet .cf, .flagGet .pf, .flagGet .sf,
    .flagGet .tf, .flagGet .af, .flagGet .df, .flagGet .ifl],
   [resp 200 "application/json"
     ("\x7b\"ZF\":" ++ boolToJson (eng.flagGet .zf) ++
      ",\"OF\":" ++ boolToJson (eng.flagGet .ofl) ++
      ",\"CF\":" ++ boolToJson (eng.flagGet .cf) ++
      ",\"PF\":" ++ boolToJson (eng.flagGet .pf) ++
      ",\"SF\":" ++ boolToJson (eng.flagGet .sf) ++
      ",\"TF\":" ++ boolToJson (eng.flagGet .tf) ++
      ",\"AF\":" ++ boolToJson (eng.flagGet .af) ++
      ",\"DF\":" ++ boolToJson (eng.flagGet .df) ++
      ",\"IF\":" ++ boolToJson (eng.flagGet .ifl) ++ "\x7d")])

/-! ### The dispatcher (`HandleRequest`) -/

/-- The try-block of `HandleRequest`: the if/else-if chain on the exact
path string, in source order; the final `else` is the 404.  `method` and
`body` are received but never consulted, as in the source. -/
def handleRequestE (eng : Engine) (_method path : String) (params : ParamMap)
    (_body : String) : HResultE :=
  if path = "/status" then .ok (handleStatus eng params)
  else if path = "/cmd" then .ok (handleCmd eng params)
  else if path = "/register/get" then .ok (handleRegisterGet eng params)
  else if path = "/register/set" then handleRegisterSet eng params
  else if path = "/memory/read" then handleMemoryRead eng params
  else if path = "/memory/write" then handleMemoryWrite eng params
  else if path = "/pattern/find_mem" then .ok (handleFindMem eng params)
  else if path = "/pattern/search_replace_mem" then .ok (handleSearchReplaceMem eng params)
  else if path = "/memory/search" then .ok (handleMemorySearch eng params)
  else if path = "/debug/run" then .ok (handleDebugRun eng params)
  else if path = "/debug/pause" then .ok (handleDebugPause eng params)
  else if path = "/debug/step" then .ok (handleDebugStep eng params)
  else if path = "/debug/stepover" then .ok (handleDebugStepOver eng params)
  else if path = "/debug/stepout" then .ok (handleDebugStepOut eng params)
  else if path = "/breakpoint/set" then handleBreakpointSet eng params
  else if path = "/breakpoint/delete" then handleBreakpointDelete eng params
  else if path = "/disasm" then handleDisasm eng params
  else if path = "/modules" then .ok (handleModules eng params)
  else if path = "/symbols/list" then .ok (handleSymbolsList eng params)
  else if path = "/label/set" then .ok (handleLabelSet eng params)
  else if path = "/label/get" then .ok (handleLabelGet eng params)
  else if path = "/label/delete" then .ok (handleLabelDelete eng params)
  else if path = "/label/from_string" then .ok (handleLabelFromString eng params)
  else if path = "/label/list" then .ok (handleLabelList eng params)
  else if path = "/comment/set" then .ok (handleCommentSet eng params)
  else if path = "/comment/get" then .ok (handleCommentGet eng params)
  else if path = "/comment/delete" then .ok (handleCommentDelete eng params)
  else if path = "/comment/list" then .ok (handleCommentList eng params)
  else if path = "/stack/push" then .ok (handleStackPush eng params)
  else if path = "/stack/pop" then .ok (handleStackPop eng params)
  else if path = "/stack/peek" then .ok (handleStackPeek eng params)
  else if path = "/function/add" then .ok (handleFunctionAdd eng params)
  else if path = "/function/get" then .ok (handleFunctionGet eng params)
  else if path = "/function/delete" then .ok (handleFunctionDelete eng params)
  else if path = "/function/list" then .ok (handleFunctionList eng params)
  else if path = "/bookmark/set" then .ok (handleBookmarkSet eng params)
  else if path = "/bookmark/get" then .ok (handleBookmarkGet eng params)
  else if path = "/bookmark/delete" then .ok (handleBookmarkDelete eng params)
  else if path = "/bookmark/list" then .ok (handleBookmarkList eng params)
  else if path = "/misc/parse_expression" then .ok (handleParseExpression eng params)
  else if path = "/misc/resolve_label" then .ok (handleResolveLabel eng params)
  else if path = "/misc/get_proc_address" then .ok (handleGetProcAddress eng params)
  else if path = "/assembler/assemble" then .ok (handleAssemble eng params)
  else if path = "/assembler/assemble_mem" then .ok (handleAssembleMem eng params)
  else if path = "/flag/get" then .ok (handleFlagGet eng params)
  else if path = "/flag/set" then .ok (handleFlagSet eng params)
  else if path = "/flags/get_all" then .ok (handleFlagsGetAll eng params)
  else .ok ([], [resp 404 "text/plain" "Endpoint not found"])

/-- `HandleRequest` with its top-level `catch (const std::exception&)`: an
exception becomes a 500 with a JSON `{"error": …}` body.  Every throw
site precedes any engine call and any `SendResponse` on its path, so the
caught case has written nothing yet. -/
def handleRequest (eng : Engine) (method path : String) (params : ParamMap)
    (body : String) : HResult :=
  match handleRequestE eng method path params body with
  | .ok r => r
  | .error msg =>
    ([], [resp 500 "application/json" ("\x7b\"error\":\"" ++ jsonEscape msg ++ "\"\x7d")])

/-- The 47 exact paths of the dispatcher chain, in source order. -/
def registeredPaths : List String :=
  ["/status", "/cmd", "/register/get", "/register/set", "/memory/read",
   "/memory/write", "/pattern/find_mem", "/pattern/search_replace_mem",
   "/memory/search", "/debug/run", "/debug/pause", "/debug/step",
   "/debug/stepover", "/debug/stepout", "/breakpoint/set",
   "/breakpoint/delete", "/disasm", "/modules", "/symbols/list",
   "/label/set", "/label/get", "/label/delete", "/label/from_string",
   "/label/list", "/comment/set", "/comment/get", "/comment/delete",
   "/comment/list", "/stack/push", "/stack/pop", "/stack/peek",
   "/function/add", "/function/get", "/function/delete", "/function/list",
   "/bookmark/set", "/bookmark/get", "/bookmark/delete", "/bookmark/list",
   "/misc/parse_expression", "/misc/resolve_label", "/misc/get_proc_address",
   "/assembler/assemble", "/assembler/assemble_mem", "/flag/get",
   "/flag/set", "/flags/get_all"]

/-- The registered paths whose handler rejects with 400 when a required
parameter is missing (every endpoint with at least one required
parameter). -/
def paramRequiredPaths : List String :=
  ["/cmd", "/register/get", "/register/set", "/memory/read", "/memory/write",
   "/pattern/find_mem", "/pattern/search_replace_mem", "/memory/search",
   "/breakpoint/set", "/breakpoint/delete", "/disasm", "/label/set",
   "/label/get", "/label/delete", "/label/from_string", "/comment/set",
   "/comment/get", "/comment/delete", "/stack/push", "/function/add",
   "/function/get", "/function/delete", "/bookmark/set", "/bookmark/get",
   "/bookmark/delete", "/misc/parse_expression", "/misc/resolve_label",
   "/misc/get_proc_address", "/assembler/assemble", "/assembler/assemble_mem",
   "/flag/get", "/flag/set"]

/-! ### Per-connection processing (`ServerThread` loop body) -/

/-- The request parse performed by `ServerThread` on the received buffer:
the first line up to `"\r\n"` is split at its first two spaces into
method and URL; the URL splits at the first `?` into path and query; the
body is everything after `"\r\n\r\n"`.  `none` when any of the request
line conditions fails — in that case no handler runs and nothing is
written (silent drop). -/
def parseRequest (raw : String) : Option (String × String × ParamMap × String) :=
  let rl := raw.data
  match findSub ['\r', '\n'] rl with
  | none => none
  | some firstLineEnd =>
    let requestLine := rl.take firstLineEnd
    match findSub [' '] requestLine with
    | none => none
    | some methodEnd =>
      match findSub [' '] (requestLine.drop (methodEnd + 1)) with
      | none => none
      | some rel =>
        let method : String := ⟨requestLine.take methodEnd⟩
        let url := (requestLine.drop (methodEnd + 1)).take rel
        let pq : String × String :=
          match findSub ['?'] url with
          | some queryStart => (⟨url.take queryStart⟩, ⟨url.drop (queryStart + 1)⟩)
          | none => (⟨url⟩, "")
        let body : String :=
          match findSub ['\r', '\n', '\r', '\n'] rl with
          | some bodyStart => ⟨rl.drop (bodyStart + 4)⟩
          | none => ""
        some (method, pq.1, parseQuery pq.2, body)

/-- The responses written on one accepted connection: `none` models a
zero-or-negative `recv` (connection closed without dispatch); otherwise
the buffer is parsed and, if the request line is well-formed,
`HandleRequest` runs.  In every case the socket is then closed. -/
def connectionResponses (eng : Engine) (recv : Option String) : List Response :=
  match recv with
  | none => []
  | some raw =>
    match parseRequest raw with
    | none => []
    | some r => (handleRequest eng r.1 r.2.1 r.2.2.1 r.2.2.2).2

/-- A concrete engine used to instantiate witnesses: every oracle returns
a fixed default. -/
def defaultEngine : Engine where
  dbgIsDebugging := false
  dbgIsRunning := false
  cmdExec := fun _ => true
  regGet := fun _ => 0
  regSet := fun _ _ => true
  memRead := fun _ size => some (List.replicate size 0)
  memWrite := fun _ data => (true, data.length)
  findMem := fun _ _ _ => 0
  searchReplaceMem := fun _ _ _ _ => true
  setBreakpoint := fun _ => true
  deleteBreakpoint := fun _ => true
  disasmAt := fun _ => ("nop", 1)
  moduleList := some []
  symbolList := some []
  labelSet := fun _ _ _ _ => true
  labelGet := fun _ => (false, "")
  labelDelete := fun _ => true
  labelFromString := fun _ => (false, 0)
  labelList := some []
  commentSet := fun _ _ _ => true
  commentGet := fun _ => (false, "")
  commentDelete := fun _ => true
  commentList := some []
  stackPush := fun _ => 0
  stackPop := 0
  stackPeek := fun _ => 0
  functionAdd := fun _ _ _ _ => true
  functionGet := fun _ => (false, 0, 0, 0)
  functionDelete := fun _ => true
  functionList := some []
  bookmarkSet := fun _ _ => true
  bookmarkGet := fun _ => false
  bookmarkDelete := fun _ => true
  bookmarkList := some []
  parseExpr := fun _ => (true, 0)
  resolveLabel := fun _ => 0
  remoteGetProcAddress := fun _ _ => 0
  assembleMem := fun _ _ => true
  assemble := fun _ _ => (true, [144])
  flagGet := fun _ => false
  flagSet := fun _ _ => true
  debugRun := ()
  debugPause := ()
  debugStepIn := ()
  debugStepOver := ()
  debugStepOut := ()

/-- `defaultEngine` with a pattern oracle that reports a hit at the start
of every non-empty searched range (satisfying the range contract of
`Script::Pattern::FindMem`: a non-zero result lies inside the range). -/
def searchEngine : Engine :=
  { defaultEngine with findMem := fun a s _ => if s = 0 then 0 else a }

/-! ### Support definitions for the claims -/

/-- Number of responses an `HResultE` leads to once the top-level catch
is applied: an `ok` writes its own responses, an `error` is turned into
exactly one 500 by the boundary. -/
def respCount : HResultE → Nat
  | .ok r => r.2.length
  | .error _ => 1

/-- The 22 hex-digit characters. -/
def hexDigitChars : List Char := "0123456789abcdefABCDEF".data

/-- Modelled from the spec: "parses as a base-prefixed integer (`0x` hex,
otherwise decimal) via a strict numeric parse" — the whole value must be
`0x` followed by hex digits, or decimal digits, with nothing else. -/
def strictNumParse (s : String) : Option Nat :=
  match s.data with
  | '0' :: 'x' :: rest =>
    if rest ≠ [] ∧ rest.all (fun c => digitVal c < 16) then
      some (rest.foldl (fun a c => a * 16 + digitVal c) 0)
    else none
  | l =>
    if l ≠ [] ∧ l.all (fun c => digitVal c < 10) then
      some (l.foldl (fun a c => a * 10 + digitVal c) 0)
    else none

/-- Declarative acceptance condition of the `strtoull`/`strtol` digit
scan: after optional whitespace and an optional sign, the value starts
with `0` (which is itself a digit in every detected base) or with a digit
of the base that will be detected (base 0: decimal; base 16: hex). -/
def numericHeadOk (base0 : Bool) (s : String) : Bool :=
  match (readSign (s.data.dropWhile isWsChar)).2 with
  | [] => false
  | c :: _ => if c = '0' then true else digitVal c < (if base0 then 10 else 16)

/-- The keys of a modelled `ParamMap`. -/
def keysOf (m : List (String × String)) : List String := m.map Prod.fst

/-- The key/value pairs produced by the segments of a query string, in
segment order (segments without `=` contribute nothing). -/
def queryPairs (q : String) : List (String × String) :=
  (querySegs q.data).filterMap segPair

/-- The required parameter keys of each endpoint, in the order its
handler checks them; the absence of any of them is answered 400 before
any engine call. -/
def requiredParams : String → List String
  | "/cmd" => ["cmd"]
  | "/register/get" => ["name"]
  | "/register/set" => ["name", "value"]
  | "/memory/read" => ["addr", "size"]
  | "/memory/write" => ["addr", "data"]
  | "/pattern/find_mem" => ["start", "size", "pattern"]
  | "/pattern/search_replace_mem" => ["start", "size", "search", "replace"]
  | "/memory/search" => ["start", "size", "pattern"]
  | "/breakpoint/set" => ["addr"]
  | "/breakpoint/delete" => ["addr"]
  | "/disasm" => ["addr"]
  | "/label/set" => ["addr", "text"]
  | "/label/get" => ["addr"]
  | "/label/delete" => ["addr"]
  | "/label/from_string" => ["label"]
  | "/comment/set" => ["addr", "text"]
  | "/comment/get" => ["addr"]
  | "/comment/delete" => ["addr"]
  | "/stack/push" => ["value"]
  | "/function/add" => ["start", "end"]
  | "/function/get" => ["addr"]
  | "/function/delete" => ["addr"]
  | "/bookmark/set" => ["addr"]
  | "/bookmark/get" => ["addr"]
  | "/bookmark/delete" => ["addr"]
  | "/misc/parse_expression" => ["expr"]
  | "/misc/resolve_label" => ["label"]
  | "/misc/get_proc_address" => ["module", "api"]
  | "/assembler/assemble" => ["addr", "instruction"]
  | "/assembler/assemble_mem" => ["addr", "instruction"]
  | "/flag/get" => ["flag"]
  | "/flag/set" => ["flag", "value"]
  | _ => []

/-- The required keys an endpoint extracts through the `GetParamAddr`
helper: for these, a present but unparsable value is also answered 400
(the helper swallows the `stoull` exception and reports failure). -/
def requiredAddrParams : String → List String
  | "/pattern/find_mem" => ["start", "size"]
  | "/pattern/search_replace_mem" => ["start", "size"]
  | "/memory/search" => ["start", "size"]
  | "/label/set" => ["addr"]
  | "/label/get" => ["addr"]
  | "/label/delete" => ["addr"]
  | "/comment/set" => ["addr"]
  | "/comment/get" => ["addr"]
  | "/comment/delete" => ["addr"]
  | "/stack/push" => ["value"]
  | "/function/add" => ["start", "end"]
  | "/function/get" => ["addr"]
  | "/function/delete" => ["addr"]
  | "/bookmark/set" => ["addr"]
  | "/bookmark/get" => ["addr"]
  | "/bookmark/delete" => ["addr"]
  | "/assembler/assemble" => ["addr"]
  | "/assembler/assemble_mem" => ["addr"]
  | _ => []

/-! ## Theorems -/

/-- Claim C7: `GetParamBool` on a present parameter returns found and sets
the out-parameter to `true` exactly when the value is one of the literal
strings `"true"`, `"1"`, `"yes"` (case-sensitive); when the key is absent
it returns not-found and leaves the out-parameter unchanged. -/
theorem c7_getParamBool_spec (params : ParamMap) (key : String) (out : Bool) :
    (∀ v, getParam params key = some v →
      (getParamBool params key out).1 = true ∧
      ((getParamBool params key out).2 = true ↔ (v = "true" ∨ v = "1" ∨ v = "yes"))) ∧
    (getParam params key = none → getParamBool params key out = (false, out)) := by
  refine ⟨fun v hv => ?_, fun h => ?_⟩
  · simp [getParamBool, hv]
  · simp [getParamBool, h]

/-- Witness for C7: `"yes"` is accepted, `"True"` is not (case-sensitive),
absence leaves the out-parameter's previous value. -/
theorem c7_witness :
    (getParamBool [("manual", "yes")] "manual" false).1 = true ∧
    (getParamBool [("manual", "yes")] "manual" false).2 = true ∧
    (getParamBool [("manual", "True")] "manual" false).2 = false ∧
    getParamBool [] "manual" true = (false, true) := by
  refine ⟨((c7_getParamBool_spec [("manual", "yes")] "manual" false).1 "yes" rfl).1,
         ((c7_getParamBool_spec [("manual", "yes")] "manual" false).1 "yes" rfl).2.mpr
           (Or.inr (Or.inr rfl)),
         ?_,
         (c7_getParamBool_spec [] "manual" true).2 rfl⟩
  have h := ((c7_getParamBool_spec [("manual", "True")] "manual" false).1 "True" rfl).2
  revert h
  decide

/-- Claim C1 (counterexample): `/register/set` with a present but
unparsable `value` does not answer 400 — the raw `std::stoull` throws and
the top-level boundary answers 500 with a JSON body. -/
theorem c1_counterexample :
    handleRequest defaultEngine "GET" "/register/set"
        [("name", "eax"), ("value", "zzz")] "" =
      ([], [resp 500 "application/json" "\x7b\"error\":\"invalid stoull argument\"\x7d"]) ∧
    (500 : Nat) ≠ 400 :=
  ⟨rfl, by decide⟩

/-- A key missing from the map fails the `GetParamAddr` extraction
too. -/
theorem getParamAddr_none_of_getParam_none (params : ParamMap) (k : String)
    (h : getParam params k = none) : getParamAddr params k = none := by
  simp [getParamAddr, h]

/-- `handleCmd` answers 400 whenever one of its required extractions
fails. -/
theorem h400_Cmd (eng : Engine) (params : ParamMap)
    (h : getParam params "cmd" = none) :
    handleCmd eng params = ([], [resp 400 "text/plain" "Missing 'cmd' parameter"]) := by
  unfold handleCmd
  rcases hg1 : getParam params "cmd" with _ | x1 <;>
    simp_all

/-- `handleRegisterGet` answers 400 whenever one of its required extractions
fails. -/
theorem h400_RegisterGet (eng : Engine) (params : ParamMap)
    (h : getParam params "name" = none) :
    handleRegisterGet eng params = ([], [resp 400 "text/plain" "Missing 'name' parameter"]) := by
  unfold handleRegisterGet
  rcases hg1 : getParam params "name" with _ | x1 <;>
    simp_all

/-- `handleRegisterSet` answers 400 whenever one of its required extractions
fails. -/
theorem h400_RegisterSet (eng : Engine) (params : ParamMap)
    (h : getParam params "name" = none ∨
         getParam params "value" = none) :
    handleRegisterSet eng params = .ok ([], [resp 400 "text/plain" "Missing 'name' or 'value' parameter"]) := by
  unfold handleRegisterSet
  rcases hg1 : getParam params "name" with _ | x1 <;>
    rcases hg2 : getParam params "value" with _ | x2 <;>
    simp_all

/-- `handleMemoryRead` answers 400 whenever one of its required extractions
fails. -/
theorem h400_MemoryRead (eng : Engine) (params : ParamMap)
    (h : getParam params "addr" = none ∨
         getParam params "size" = none) :
    handleMemoryRead eng params = .ok ([], [resp 400 "text/plain" "Missing 'addr' or 'size' parameter"]) := by
  unfold handleMemoryRead
  rcases hg1 : getParam params "addr" with _ | x1 <;>
    rcases hg2 : getParam params "size" with _ | x2 <;>
    simp_all

/-- `handleMemoryWrite` answers 400 whenever one of its required extractions
fails. -/
theorem h400_MemoryWrite (eng : Engine) (params : ParamMap)
    (h : getParam params "addr" = none ∨
         getParam params "data" = none) :
    handleMemoryWrite eng params = .ok ([], [resp 400 "text/plain" "Missing 'addr' or 'data' parameter"]) := by
  unfold handleMemoryWrite
  rcases hg1 : getParam params "addr" with _ | x1 <;>
    rcases hg2 : getParam params "data" with _ | x2 <;>
    simp_all

/-- `handleFindMem` answers 400 whenever one of its required extractions
fails. -/
theorem h400_FindMem (eng : Engine) (params : ParamMap)
    (h : getParamAddr params "start" = none ∨
         getParamAddr params "size" = none ∨
         getParam params "pattern" = none) :
    handleFindMem eng params = ([], [resp 400 "text/plain" "Missing 'start', 'size', or 'pattern' parameter"]) := by
  unfold handleFindMem
  rcases hg1 : getParamAddr params "start" with _ | x1 <;>
    rcases hg2 : getParamAddr params "size" with _ | x2 <;>
    rcases hg3 : getParam params "pattern" with _ | x3 <;>
    simp_all

/-- `handleSearchReplaceMem` answers 400 whenever one of its required extractions
fails. -/
theorem h400_SearchReplaceMem (eng : Engine) (params : ParamMap)
    (h : getParamAddr params "start" = none ∨
         getParamAddr params "size" = none ∨
         getParam params "search" = none ∨
         getParam params "replace" = none) :
    handleSearchReplaceMem eng params = ([], [resp 400 "text/plain" "Missing 'start', 'size', 'search', or 'replace' parameter"]) := by
  unfold handleSearchReplaceMem
  rcases hg1 : getParamAddr params "start" with _ | x1 <;>
    rcases hg2 : getParamAddr params "size" with _ | x2 <;>
    rcases hg3 : getParam params "search" with _ | x3 <;>
    rcases hg4 : getParam params "replace" with _ | x4 <;>
    simp_all

/-- `handleMemorySearch` answers 400 whenever one of its required extractions
fails. -/
theorem h400_MemorySearch (eng : Engine) (params : ParamMap)
    (h : getParamAddr params "start" = none ∨
         getParamAddr params "size" = none ∨
         getParam params "pattern" = none) :
    handleMemorySearch eng params = ([], [resp 400 "text/plain" "Missing 'start', 'size', or 'pattern' parameter"]) := by
  unfold handleMemorySearch
  rcases hg1 : getParamAddr params "start" with _ | x1 <;>
    rcases hg2 : getParamAddr params "size" with _ | x2 <;>
    rcases hg3 : getParam params "pattern" with _ | x3 <;>
    simp_all

/-- `handleBreakpointSet` answers 400 whenever one of its required extractions
fails. -/
theorem h400_BreakpointSet (eng : Engine) (params : ParamMap)
    (h : getParam params "addr" = none) :
    handleBreakpointSet eng params = .ok ([], [resp 400 "text/plain" "Missing 'addr' parameter"]) := by
  unfold handleBreakpointSet
  rcases hg1 : getParam params "addr" with _ | x1 <;>
    simp_all

/-- `handleBreakpointDelete` answers 400 whenever one of its required extractions
fails. -/
theorem h400_BreakpointDelete (eng : Engine) (params : ParamMap)
    (h : getParam params "addr" = none) :
    handleBreakpointDelete eng params = .ok ([], [resp 400 "text/plain" "Missing 'addr' parameter"]) := by
  unfold handleBreakpointDelete
  rcases hg1 : getParam params "addr" with _ | x1 <;>
    simp_all

/-- `handleDisasm` answers 400 whenever one of its required extractions
fails. -/
theorem h400_Disasm (eng : Engine) (params : ParamMap)
    (h : getParam params "addr" = none) :
    handleDisasm eng params = .ok ([], [resp 400 "text/plain" "Missing 'addr' parameter"]) := by
  unfold handleDisasm
  rcases hg1 : getParam params "addr" with _ | x1 <;>
    simp_all

/-- `handleLabelSet` answers 400 whenever one of its required extractions
fails. -/
theorem h400_LabelSet (eng : Engine) (params : ParamMap)
    (h : getParamAddr params "addr" = none ∨
         getParam params "text" = none) :
    handleLabelSet eng params = ([], [resp 400 "text/plain" "Missing 'addr' or 'text' parameter"]) := by
  unfold handleLabelSet
  rcases hg1 : getParamAddr params "addr" with _ | x1 <;>
    rcases hg2 : getParam params "text" with _ | x2 <;>
    simp_all

/-- `handleLabelGet` answers 400 whenever one of its required extractions
fails. -/
theorem h400_LabelGet (eng : Engine) (params : ParamMap)
    (h : getParamAddr params "addr" = none) :
    handleLabelGet eng params = ([], [resp 400 "text/plain" "Missing 'addr' parameter"]) := by
  unfold handleLabelGet
  rcases hg1 : getParamAddr params "addr" with _ | x1 <;>
    simp_all

/-- `handleLabelDelete` answers 400 whenever one of its required extractions
fails. -/
theorem h400_LabelDelete (eng : Engine) (params : ParamMap)
    (h : getParamAddr params "addr" = none) :
    handleLabelDelete eng params = ([], [resp 400 "text/plain" "Missing 'addr' parameter"]) := by
  unfold handleLabelDelete
  rcases hg1 : getParamAddr params "addr" with _ | x1 <;>
    simp_all

/-- `handleLabelFromString` answers 400 whenever one of its required extractions
fails. -/
theorem h400_LabelFromString (eng : Engine) (params : ParamMap)
    (h : getParam params "label" = none) :
    handleLabelFromString eng params = ([], [resp 400 "text/plain" "Missing 'label' parameter"]) := by
  unfold handleLabelFromString
  rcases hg1 : getParam params "label" with _ | x1 <;>
    simp_all

/-- `handleCommentSet` answers 400 whenever one of its required extractions
fails. -/
theorem h400_CommentSet (eng : Engine) (params : ParamMap)
    (h : getParamAddr params "addr" = none ∨
         getParam params "text" = none) :
    handleCommentSet eng params = ([], [resp 400 "text/plain" "Missing 'addr' or 'text' parameter"]) := by
  unfold handleCommentSet
  rcases hg1 : getParamAddr params "addr" with _ | x1 <;>
    rcases hg2 : getParam params "text" with _ | x2 <;>
    simp_all

/-- `handleCommentGet` answers 400 whenever one of its required extractions
fails. -/
theorem h400_CommentGet (eng : Engine) (params : ParamMap)
    (h : getParamAddr params "addr" = none) :
    handleCommentGet eng params = ([], [resp 400 "text/plain" "Missing 'addr' parameter"]) := by
  unfold handleCommentGet
  rcases hg1 : getParamAddr params "addr" with _ | x1 <;>
    simp_all

/-- `handleCommentDelete` answers 400 whenever one of its required extractions
fails. -/
theorem h400_CommentDelete (eng : Engine) (params : ParamMap)
    (h : getParamAddr params "addr" = none) :
    handleCommentDelete eng params = ([], [resp 400 "text/plain" "Missing 'addr' parameter"]) := by
  unfold handleCommentDelete
  rcases hg1 : getParamAddr params "addr" with _ | x1 <;>
    simp_all

/-- `handleStackPush` answers 400 whenever one of its required extractions
fails. -/
theorem h400_StackPush (eng : Engine) (params : ParamMap)
    (h : getParamAddr params "value" = none) :
    handleStackPush eng params = ([], [resp 400 "text/plain" "Missing 'value' parameter"]) := by
  unfold handleStackPush
  rcases hg1 : getParamAddr params "value" with _ | x1 <;>
    simp_all

/-- `handleFunctionAdd` answers 400 whenever one of its required extractions
fails. -/
theorem h400_FunctionAdd (eng : Engine) (params : ParamMap)
    (h : getParamAddr params "start" = none ∨
         getParamAddr params "end" = none) :
    handleFunctionAdd eng params = ([], [resp 400 "text/plain" "Missing 'start' or 'end' parameter"]) := by
  unfold handleFunctionAdd
  rcases hg1 : getParamAddr params "start" with _ | x1 <;>
    rcases hg2 : getParamAddr params "end" with _ | x2 <;>
    simp_all

/-- `handleFunctionGet` answers 400 whenever one of its required extractions
fails. -/
theorem h400_FunctionGet (eng : Engine) (params : ParamMap)
    (h : getParamAddr params "addr" = none) :
    handleFunctionGet eng params = ([], [resp 400 "text/plain" "Missing 'addr' parameter"]) := by
  unfold handleFunctionGet
  rcases hg1 : getParamAddr params "addr" with _ | x1 <;>
    simp_all

/-- `handleFunctionDelete` answers 400 whenever one of its required extractions
fails. -/
theorem h400_FunctionDelete (eng : Engine) (params : ParamMap)
    (h : getParamAddr params "addr" = none) :
    handleFunctionDelete eng params = ([], [resp 400 "text/plain" "Missing 'addr' parameter"]) := by
  unfold handleFunctionDelete
  rcases hg1 : getParamAddr params "addr" with _ | x1 <;>
    simp_all

/-- `handleBookmarkSet` answers 400 whenever one of its required extractions
fails. -/
theorem h400_BookmarkSet (eng : Engine) (params : ParamMap)
    (h : getParamAddr params "addr" = none) :
    handleBookmarkSet eng params = ([], [resp 400 "text/plain" "Missing 'addr' parameter"]) := by
  unfold handleBookmarkSet
  rcases hg1 : getParamAddr params "addr" with _ | x1 <;>
    simp_all

/-- `handleBookmarkGet` answers 400 whenever one of its required extractions
fails. -/
theorem h400_BookmarkGet (eng : Engine) (params : ParamMap)
    (h : getParamAddr params "addr" = none) :
    handleBookmarkGet eng params = ([], [resp 400 "text/plain" "Missing 'addr' parameter"]) := by
  unfold handleBookmarkGet
  rcases hg1 : getParamAddr params "addr" with _ | x1 <;>
    simp_all

/-- `handleBookmarkDelete` answers 400 whenever one of its required extractions
fails. -/
theorem h400_BookmarkDelete (eng : Engine) (params : ParamMap)
    (h : getParamAddr params "addr" = none) :
    handleBookmarkDelete eng params = ([], [resp 400 "text/plain" "Missing 'addr' parameter"]) := by
  unfold handleBookmarkDelete
  rcases hg1 : getParamAddr params "addr" with _ | x1 <;>
    simp_all

/-- `handleParseExpression` answers 400 whenever one of its required extractions
fails. -/
theorem h400_ParseExpression (eng : Engine) (params : ParamMap)
    (h : getParam params "expr" = none) :
    handleParseExpression eng params = ([], [resp 400 "text/plain" "Missing 'expr' parameter"]) := by
  unfold handleParseExpression
  rcases hg1 : getParam params "expr" with _ | x1 <;>
    simp_all

/-- `handleResolveLabel` answers 400 whenever one of its required extractions
fails. -/
theorem h400_ResolveLabel (eng : Engine) (params : ParamMap)
    (h : getParam params "label" = none) :
    handleResolveLabel eng params = ([], [resp 400 "text/plain" "Missing 'label' parameter"]) := by
  unfold handleResolveLabel
  rcases hg1 : getParam params "label" with _ | x1 <;>
    simp_all

/-- `handleGetProcAddress` answers 400 whenever one of its required extractions
fails. -/
theorem h400_GetProcAddress (eng : Engine) (params : ParamMap)
    (h : getParam params "module" = none ∨
         getParam params "api" = none) :
    handleGetProcAddress eng params = ([], [resp 400 "text/plain" "Missing 'module' or 'api' parameter"]) := by
  unfold handleGetProcAddress
  rcases hg1 : getParam params "module" with _ | x1 <;>
    rcases hg2 : getParam params "api" with _ | x2 <;>
    simp_all

/-- `handleAssemble` answers 400 whenever one of its required extractions
fails. -/
theorem h400_Assemble (eng : Engine) (params : ParamMap)
    (h : getParamAddr params "addr" = none ∨
         getParam params "instruction" = none) :
    handleAssemble eng params = ([], [resp 400 "text/plain" "Missing 'addr' or 'instruction' parameter"]) := by
  unfold handleAssemble
  rcases hg1 : getParamAddr params "addr" with _ | x1 <;>
    rcases hg2 : getParam params "instruction" with _ | x2 <;>
    simp_all

/-- `handleAssembleMem` answers 400 whenever one of its required extractions
fails. -/
theorem h400_AssembleMem (eng : Engine) (params : ParamMap)
    (h : getParamAddr params "addr" = none ∨
         getParam params "instruction" = none) :
    handleAssembleMem eng params = ([], [resp 400 "text/plain" "Missing 'addr' or 'instruction' parameter"]) := by
  unfold handleAssembleMem
  rcases hg1 : getParamAddr params "addr" with _ | x1 <;>
    rcases hg2 : getParam params "instruction" with _ | x2 <;>
    simp_all

/-- `handleFlagGet` answers 400 whenever one of its required extractions
fails. -/
theorem h400_FlagGet (eng : Engine) (params : ParamMap)
    (h : getParam params "flag" = none) :
    handleFlagGet eng params = ([], [resp 400 "text/plain" "Missing 'flag' parameter"]) := by
  unfold handleFlagGet
  rcases hg1 : getParam params "flag" with _ | x1 <;>
    simp_all

/-- `handleFlagSet` answers 400 whenever one of its required extractions
fails. -/
theorem h400_FlagSet (eng : Engine) (params : ParamMap)
    (h : getParam params "flag" = none ∨
         getParam params "value" = none) :
    handleFlagSet eng params = ([], [resp 400 "text/plain" "Missing 'flag' or 'value' parameter"]) := by
  unfold handleFlagSet
  rcases hg1 : getParam params "flag" with _ | x1 <;>
    rcases hg2 : getParam params "value" with _ | x2 <;>
    simp_all [getParamBool]

set_option maxRecDepth 4096 in
/-- Claim C1 (amended): on every endpoint with required parameters, a
request in which any required parameter is missing — or in which a
required numeric parameter extracted through the `GetParamAddr` helper is
present but unparsable — receives 400 with a plain-text body, and no
engine operation is invoked.  (In the inline handlers — register/set,
memory/read, memory/write, breakpoint/set, breakpoint/delete, disasm — a
present but unparsable value instead escapes as a `stoull`/`stoi`
exception and is answered 500 JSON by the top-level boundary, still with
no engine call, as the counterexample shows.) -/
theorem c1_param_validation_400 (eng : Engine) (method body path : String)
    (params : ParamMap) (k : String)
    (hpath : path ∈ paramRequiredPaths)
    (hmiss : (k ∈ requiredParams path ∧ getParam params k = none) ∨
             (k ∈ requiredAddrParams path ∧ getParamAddr params k = none)) :
    (handleRequest eng method path params body).1 = [] ∧
    (handleRequest eng method path params body).2.map Response.code = [400] ∧
    (handleRequest eng method path params body).2.map Response.contentType
      = ["text/plain"] := by
  simp only [paramRequiredPaths, List.mem_cons, List.not_mem_nil, or_false] at hpath
  rcases hpath with rfl | rfl | rfl | rfl | rfl | rfl | rfl | rfl | rfl | rfl | rfl | rfl | rfl | rfl | rfl | rfl | rfl | rfl | rfl | rfl | rfl | rfl | rfl | rfl | rfl | rfl | rfl | rfl | rfl | rfl | rfl | rfl
  · -- /cmd
    have h400 : handleCmd eng params = ([], [resp 400 "text/plain" "Missing 'cmd' parameter"]) := by
      apply h400_Cmd
      rcases hmiss with ⟨hk, hm⟩ | ⟨hk, hm⟩
      · have hk2 : k ∈ ["cmd"] := hk
        simp only [List.mem_cons, List.not_mem_nil, or_false] at hk2
        subst hk2
        exact hm
      · have hk2 : k ∈ ([] : List String) := hk
        exact absurd hk2 (List.not_mem_nil k)
    have hd : handleRequest eng method "/cmd" params body = handleCmd eng params := rfl
    rw [hd, h400]
    exact ⟨rfl, rfl, rfl⟩
  · -- /register/get
    have h400 : handleRegisterGet eng params = ([], [resp 400 "text/plain" "Missing 'name' parameter"]) := by
      apply h400_RegisterGet
      rcases hmiss with ⟨hk, hm⟩ | ⟨hk, hm⟩
      · have hk2 : k ∈ ["name"] := hk
        simp only [List.mem_cons, List.not_mem_nil, or_false] at hk2
        subst hk2
        exact hm
      · have hk2 : k ∈ ([] : List String) := hk
        exact absurd hk2 (List.not_mem_nil k)
    have hd : handleRequest eng method "/register/get" params body = handleRegisterGet eng params := rfl
    rw [hd, h400]
    exact ⟨rfl, rfl, rfl⟩
  · -- /register/set
    have h400 : handleRegisterSet eng params = .ok ([], [resp 400 "text/plain" "Missing 'name' or 'value' parameter"]) := by
      apply h400_RegisterSet
      rcases hmiss with ⟨hk, hm⟩ | ⟨hk, hm⟩
      · have hk2 : k ∈ ["name", "value"] := hk
        simp only [List.mem_cons, List.not_mem_nil, or_false] at hk2
        rcases hk2 with rfl | rfl
        exacts [Or.inl (hm),
          Or.inr (hm)]
      · have hk2 : k ∈ ([] : List String) := hk
        exact absurd hk2 (List.not_mem_nil k)
    have hd : handleRequest eng method "/register/set" params body =
        (match handleRegisterSet eng params with
         | .ok r => r
         | .error msg => ([], [resp 500 "application/json"
             ("\x7b\"error\":\"" ++ jsonEscape msg ++ "\"\x7d")])) := rfl
    rw [hd, h400]
    exact ⟨rfl, rfl, rfl⟩
  · -- /memory/read
    have h400 : handleMemoryRead eng params = .ok ([], [resp 400 "text/plain" "Missing 'addr' or 'size' parameter"]) := by
      apply h400_MemoryRead
      rcases hmiss with ⟨hk, hm⟩ | ⟨hk, hm⟩
      · have hk2 : k ∈ ["addr", "size"] := hk
        simp only [List.mem_cons, List.not_mem_nil, or_false] at hk2
        rcases hk2 with rfl | rfl
        exacts [Or.inl (hm),
          Or.inr (hm)]
      · have hk2 : k ∈ ([] : List String) := hk
        exact absurd hk2 (List.not_mem_nil k)
    have hd : handleRequest eng method "/memory/read" params body =
        (match handleMemoryRead eng params with
         | .ok r => r
         | .error msg => ([], [resp 500 "application/json"
             ("\x7b\"error\":\"" ++ jsonEscape msg ++ "\"\x7d")])) := rfl
    rw [hd, h400]
    exact ⟨rfl, rfl, rfl⟩
  · -- /memory/write
    have h400 : handleMemoryWrite eng params = .ok ([], [resp 400 "text/plain" "Missing 'addr' or 'data' parameter"]) := by
      apply h400_MemoryWrite
      rcases hmiss with ⟨hk, hm⟩ | ⟨hk, hm⟩
      · have hk2 : k ∈ ["addr", "data"] := hk
        simp only [List.mem_cons, List.not_mem_nil, or_false] at hk2
        rcases hk2 with rfl | rfl
        exacts [Or.inl (hm),
          Or.inr (hm)]
      · have hk2 : k ∈ ([] : List String) := hk
        exact absurd hk2 (List.not_mem_nil k)
    have hd : handleRequest eng method "/memory/write" params body =
        (match handleMemoryWrite eng params with
         | .ok r => r
         | .error msg => ([], [resp 500 "application/json"
             ("\x7b\"error\":\"" ++ jsonEscape msg ++ "\"\x7d")])) := rfl
    rw [hd, h400]
    exact ⟨rfl, rfl, rfl⟩
  · -- /pattern/find_mem
    have h400 : handleFindMem eng params = ([], [resp 400 "text/plain" "Missing 'start', 'size', or 'pattern' parameter"]) := by
      apply h400_FindMem
      rcases hmiss with ⟨hk, hm⟩ | ⟨hk, hm⟩
      · have hk2 : k ∈ ["start", "size", "pattern"] := hk
        simp only [List.mem_cons, List.not_mem_nil, or_false] at hk2
        rcases hk2 with rfl | rfl | rfl
        exacts [Or.inl (getParamAddr_none_of_getParam_none params "start" hm),
          Or.inr (Or.inl (getParamAddr_none_of_getParam_none params "size" hm)),
          Or.inr (Or.inr (hm))]
      · have hk2 : k ∈ ["start", "size"] := hk
        simp only [List.mem_cons, List.not_mem_nil, or_false] at hk2
        rcases hk2 with rfl | rfl
        exacts [Or.inl (hm),
          Or.inr (Or.inl (hm))]
    have hd : handleRequest eng method "/pattern/find_mem" params body = handleFindMem eng params := rfl
    rw [hd, h400]
    exact ⟨rfl, rfl, rfl⟩
  · -- /pattern/search_replace_mem
    have h400 : handleSearchReplaceMem eng params = ([], [resp 400 "text/plain" "Missing 'start', 'size', 'search', or 'replace' parameter"]) := by
      apply h400_SearchReplaceMem
      rcases hmiss with ⟨hk, hm⟩ | ⟨hk, hm⟩
      · have hk2 : k ∈ ["start", "size", "search", "replace"] := hk
        simp only [List.mem_cons, List.not_mem_nil, or_false] at hk2
        rcases hk2 with rfl | rfl | rfl | rfl
        exacts [Or.inl (getParamAddr_none_of_getParam_none params "start" hm),
          Or.inr (Or.inl (getParamAddr_none_of_getParam_none params "size" hm)),
          Or.inr (Or.inr (Or.inl (hm))),
          Or.inr (Or.inr (Or.inr (hm)))]
      · have hk2 : k ∈ ["start", "size"] := hk
        simp only [List.mem_cons, List.not_mem_nil, or_false] at hk2
        rcases hk2 with rfl | rfl
        exacts [Or.inl (hm),
          Or.inr (Or.inl (hm))]
    have hd : handleRequest eng method "/pattern/search_replace_mem" params body = handleSearchReplaceMem eng params := rfl
    rw [hd, h400]
    exact ⟨rfl, rfl, rfl⟩
  · -- /memory/search
    have h400 : handleMemorySearch eng params = ([], [resp 400 "text/plain" "Missing 'start', 'size', or 'pattern' parameter"]) := by
      apply h400_MemorySearch
      rcases hmiss with ⟨hk, hm⟩ | ⟨hk, hm⟩
      · have hk2 : k ∈ ["start", "size", "pattern"] := hk
        simp only [List.mem_cons, List.not_mem_nil, or_false] at hk2
        rcases hk2 with rfl | rfl | rfl
        exacts [Or.inl (getParamAddr_none_of_getParam_none params "start" hm),
          Or.inr (Or.inl (getParamAddr_none_of_getParam_none params "size" hm)),
          Or.inr (Or.inr (hm))]
      · have hk2 : k ∈ ["start", "size"] := hk
        simp only [List.mem_cons, List.not_mem_nil, or_false] at hk2
        rcases hk2 with rfl | rfl
        exacts [Or.inl (hm),
          Or.inr (Or.inl (hm))]
    have hd : handleRequest eng method "/memory/search" params body = handleMemorySearch eng params := rfl
    rw [hd, h400]
    exact ⟨rfl, rfl, rfl⟩
  · -- /breakpoint/set
    have h400 : handleBreakpointSet eng params = .ok ([], [resp 400 "text/plain" "Missing 'addr' parameter"]) := by
      apply h400_BreakpointSet
      rcases hmiss with ⟨hk, hm⟩ | ⟨hk, hm⟩
      · have hk2 : k ∈ ["addr"] := hk
        simp only [List.mem_cons, List.not_mem_nil, or_false] at hk2
        subst hk2
        exact hm
      · have hk2 : k ∈ ([] : List String) := hk
        exact absurd hk2 (List.not_mem_nil k)
    have hd : handleRequest eng method "/breakpoint/set" params body =
        (match handleBreakpointSet eng params with
         | .ok r => r
         | .error msg => ([], [resp 500 "application/json"
             ("\x7b\"error\":\"" ++ jsonEscape msg ++ "\"\x7d")])) := rfl
    rw [hd, h400]
    exact ⟨rfl, rfl, rfl⟩
  · -- /breakpoint/delete
    have h400 : handleBreakpointDelete eng params = .ok ([], [resp 400 "text/plain" "Missing 'addr' parameter"]) := by
      apply h400_BreakpointDelete
      rcases hmiss with ⟨hk, hm⟩ | ⟨hk, hm⟩
      · have hk2 : k ∈ ["addr"] := hk
        simp only [List.mem_cons, List.not_mem_nil, or_false] at hk2
        subst hk2
        exact hm
      · have hk2 : k ∈ ([] : List String) := hk
        exact absurd hk2 (List.not_mem_nil k)
    have hd : handleRequest eng method "/breakpoint/delete" params body =
        (match handleBreakpointDelete eng params with
         | .ok r => r
         | .error msg => ([], [resp 500 "application/json"
             ("\x7b\"error\":\"" ++ jsonEscape msg ++ "\"\x7d")])) := rfl
    rw [hd, h400]
    exact ⟨rfl, rfl, rfl⟩
  · -- /disasm
    have h400 : handleDisasm eng params = .ok ([], [resp 400 "text/plain" "Missing 'addr' parameter"]) := by
      apply h400_Disasm
      rcases hmiss with ⟨hk, hm⟩ | ⟨hk, hm⟩
      · have hk2 : k ∈ ["addr"] := hk
        simp only [List.mem_cons, List.not_mem_nil, or_false] at hk2
        subst hk2
        exact hm
      · have hk2 : k ∈ ([] : List String) := hk
        exact absurd hk2 (List.not_mem_nil k)
    have hd : handleRequest eng method "/disasm" params body =
        (match handleDisasm eng params with
         | .ok r => r
         | .error msg => ([], [resp 500 "application/json"
             ("\x7b\"error\":\"" ++ jsonEscape msg ++ "\"\x7d")])) := rfl
    rw [hd, h400]
    exact ⟨rfl, rfl, rfl⟩
  · -- /label/set
    have h400 : handleLabelSet eng params = ([], [resp 400 "text/plain" "Missing 'addr' or 'text' parameter"]) := by
      apply h400_LabelSet
      rcases hmiss with ⟨hk, hm⟩ | ⟨hk, hm⟩
      · have hk2 : k ∈ ["addr", "text"] := hk
        simp only [List.mem_cons, List.not_mem_nil, or_false] at hk2
        rcases hk2 with rfl | rfl
        exacts [Or.inl (getParamAddr_none_of_getParam_none params "addr" hm),
          Or.inr (hm)]
      · have hk2 : k ∈ ["addr"] := hk
        simp only [List.mem_cons, List.not_mem_nil, or_false] at hk2
        subst hk2
        exact Or.inl (hm)
    have hd : handleRequest eng method "/label/set" params body = handleLabelSet eng params := rfl
    rw [hd, h400]
    exact ⟨rfl, rfl, rfl⟩
  · -- /label/get
    have h400 : handleLabelGet eng params = ([], [resp 400 "text/plain" "Missing 'addr' parameter"]) := by
      apply h400_LabelGet
      rcases hmiss with ⟨hk, hm⟩ | ⟨hk, hm⟩
      · have hk2 : k ∈ ["addr"] := hk
        simp only [List.mem_cons, List.not_mem_nil, or_false] at hk2
        subst hk2
        exact getParamAddr_none_of_getParam_none params "addr" hm
      · have hk2 : k ∈ ["addr"] := hk
        simp only [List.mem_cons, List.not_mem_nil, or_false] at hk2
        subst hk2
        exact hm
    have hd : handleRequest eng method "/label/get" params body = handleLabelGet eng params := rfl
    rw [hd, h400]
    exact ⟨rfl, rfl, rfl⟩
  · -- /label/delete
    have h400 : handleLabelDelete eng params = ([], [resp 400 "text/plain" "Missing 'addr' parameter"]) := by
      apply h400_LabelDelete
      rcases hmiss with ⟨hk, hm⟩ | ⟨hk, hm⟩
      · have hk2 : k ∈ ["addr"] := hk
        simp only [List.mem_cons, List.not_mem_nil, or_false] at hk2
        subst hk2
        exact getParamAddr_none_of_getParam_none params "addr" hm
      · have hk2 : k ∈ ["addr"] := hk
        simp only [List.mem_cons, List.not_mem_nil, or_false] at hk2
        subst hk2
        exact hm
    have hd : handleRequest eng method "/label/delete" params body = handleLabelDelete eng params := rfl
    rw [hd, h400]
    exact ⟨rfl, rfl, rfl⟩
  · -- /label/from_string
    have h400 : handleLabelFromString eng params = ([], [resp 400 "text/plain" "Missing 'label' parameter"]) := by
      apply h400_LabelFromString
      rcases hmiss with ⟨hk, hm⟩ | ⟨hk, hm⟩
      · have hk2 : k ∈ ["label"] := hk
        simp only [List.mem_cons, List.not_mem_nil, or_false] at hk2
        subst hk2
        exact hm
      · have hk2 : k ∈ ([] : List String) := hk
        exact absurd hk2 (List.not_mem_nil k)
    have hd : handleRequest eng method "/label/from_string" params body = handleLabelFromString eng params := rfl
    rw [hd, h400]
    exact ⟨rfl, rfl, rfl⟩
  · -- /comment/set
    have h400 : handleCommentSet eng params = ([], [resp 400 "text/plain" "Missing 'addr' or 'text' parameter"]) := by
      apply h400_CommentSet
      rcases hmiss with ⟨hk, hm⟩ | ⟨hk, hm⟩
      · have hk2 : k ∈ ["addr", "text"] := hk
        simp only [List.mem_cons, List.not_mem_nil, or_false] at hk2
        rcases hk2 with rfl | rfl
        exacts [Or.inl (getParamAddr_none_of_getParam_none params "addr" hm),
          Or.inr (hm)]
      · have hk2 : k ∈ ["addr"] := hk
        simp only [List.mem_cons, List.not_mem_nil, or_false] at hk2
        subst hk2
        exact Or.inl (hm)
    have hd : handleRequest eng method "/comment/set" params body = handleCommentSet eng params := rfl
    rw [hd, h400]
    exact ⟨rfl, rfl, rfl⟩
  · -- /comment/get
    have h400 : handleCommentGet eng params = ([], [resp 400 "text/plain" "Missing 'addr' parameter"]) := by
      apply h400_CommentGet
      rcases hmiss with ⟨hk, hm⟩ | ⟨hk, hm⟩
      · have hk2 : k ∈ ["addr"] := hk
        simp only [List.mem_cons, List.not_mem_nil, or_false] at hk2
        subst hk2
        exact getParamAddr_none_of_getParam_none params "addr" hm
      · have hk2 : k ∈ ["addr"] := hk
        simp only [List.mem_cons, List.not_mem_nil, or_false] at hk2
        subst hk2
        exact hm
    have hd : handleRequest eng method "/comment/get" params body = handleCommentGet eng params := rfl
    rw [hd, h400]
    exact ⟨rfl, rfl, rfl⟩
  · -- /comment/delete
    have h400 : handleCommentDelete eng params = ([], [resp 400 "text/plain" "Missing 'addr' parameter"]) := by
      apply h400_CommentDelete
      rcases hmiss with ⟨hk, hm⟩ | ⟨hk, hm⟩
      · have hk2 : k ∈ ["addr"] := hk
        simp only [List.mem_cons, List.not_mem_nil, or_false] at hk2
        subst hk2
        exact getParamAddr_none_of_getParam_none params "addr" hm
      · have hk2 : k ∈ ["addr"] := hk
        simp only [List.mem_cons, List.not_mem_nil, or_false] at hk2
        subst hk2
        exact hm
    have hd : handleRequest eng method "/comment/delete" params body = handleCommentDelete eng params := rfl
    rw [hd, h400]
    exact ⟨rfl, rfl, rfl⟩
  · -- /stack/push
    have h400 : handleStackPush eng params = ([], [resp 400 "text/plain" "Missing 'value' parameter"]) := by
      apply h400_StackPush
      rcases hmiss with ⟨hk, hm⟩ | ⟨hk, hm⟩
      · have hk2 : k ∈ ["value"] := hk
        simp only [List.mem_cons, List.not_mem_nil, or_false] at hk2
        subst hk2
        exact getParamAddr_none_of_getParam_none params "value" hm
      · have hk2 : k ∈ ["value"] := hk
        simp only [List.mem_cons, List.not_mem_nil, or_false] at hk2
        subst hk2
        exact hm
    have hd : handleRequest eng method "/stack/push" params body = handleStackPush eng params := rfl
    rw [hd, h400]
    exact ⟨rfl, rfl, rfl⟩
  · -- /function/add
    have h400 : handleFunctionAdd eng params = ([], [resp 400 "text/plain" "Missing 'start' or 'end' parameter"]) := by
      apply h400_FunctionAdd
      rcases hmiss with ⟨hk, hm⟩ | ⟨hk, hm⟩
      · have hk2 : k ∈ ["start", "end"] := hk
        simp only [List.mem_cons, List.not_mem_nil, or_false] at hk2
        rcases hk2 with rfl | rfl
        exacts [Or.inl (getParamAddr_none_of_getParam_none params "start" hm),
          Or.inr (getParamAddr_none_of_getParam_none params "end" hm)]
      · have hk2 : k ∈ ["start", "end"] := hk
        simp only [List.mem_cons, List.not_mem_nil, or_false] at hk2
        rcases hk2 with rfl | rfl
        exacts [Or.inl (hm),
          Or.inr (hm)]
    have hd : handleRequest eng method "/function/add" params body = handleFunctionAdd eng params := rfl
    rw [hd, h400]
    exact ⟨rfl, rfl, rfl⟩
  · -- /function/get
    have h400 : handleFunctionGet eng params = ([], [resp 400 "text/plain" "Missing 'addr' parameter"]) := by
      apply h400_FunctionGet
      rcases hmiss with ⟨hk, hm⟩ | ⟨hk, hm⟩
      · have hk2 : k ∈ ["addr"] := hk
        simp only [List.mem_cons, List.not_mem_nil, or_false] at hk2
        subst hk2
        exact getParamAddr_none_of_getParam_none params "addr" hm
      · have hk2 : k ∈ ["addr"] := hk
        simp only [List.mem_cons, List.not_mem_nil, or_false] at hk2
        subst hk2
        exact hm
    have hd : handleRequest eng method "/function/get" params body = handleFunctionGet eng params := rfl
    rw [hd, h400]
    exact ⟨rfl, rfl, rfl⟩
  · -- /function/delete
    have h400 : handleFunctionDelete eng params = ([], [resp 400 "text/plain" "Missing 'addr' parameter"]) := by
      apply h400_FunctionDelete
      rcases hmiss with ⟨hk, hm⟩ | ⟨hk, hm⟩
      · have hk2 : k ∈ ["addr"] := hk
        simp only [List.mem_cons, List.not_mem_nil, or_false] at hk2
        subst hk2
        exact getParamAddr_none_of_getParam_none params "addr" hm
      · have hk2 : k ∈ ["addr"] := hk
        simp only [List.mem_cons, List.not_mem_nil, or_false] at hk2
        subst hk2
        exact hm
    have hd : handleRequest eng method "/function/delete" params body = handleFunctionDelete eng params := rfl
    rw [hd, h400]
    exact ⟨rfl, rfl, rfl⟩
  · -- /bookmark/set
    have h400 : handleBookmarkSet eng params = ([], [resp 400 "text/plain" "Missing 'addr' parameter"]) := by
      apply h400_BookmarkSet
      rcases hmiss with ⟨hk, hm⟩ | ⟨hk, hm⟩
      · have hk2 : k ∈ ["addr"] := hk
        simp only [List.mem_cons, List.not_mem_nil, or_false] at hk2
        subst hk2
        exact getParamAddr_none_of_getParam_none params "addr" hm
      · have hk2 : k ∈ ["addr"] := hk
        simp only [List.mem_cons, List.not_mem_nil, or_false] at hk2
        subst hk2
        exact hm
    have hd : handleRequest eng method "/bookmark/set" params body = handleBookmarkSet eng params := rfl
    rw [hd, h400]
    exact ⟨rfl, rfl, rfl⟩
  · -- /bookmark/get
    have h400 : handleBookmarkGet eng params = ([], [resp 400 "text/plain" "Missing 'addr' parameter"]) := by
      apply h400_BookmarkGet
      rcases hmiss with ⟨hk, hm⟩ | ⟨hk, hm⟩
      · have hk2 : k ∈ ["addr"] := hk
        simp only [List.mem_cons, List.not_mem_nil, or_false] at hk2
        subst hk2
        exact getParamAddr_none_of_getParam_none params "addr" hm
      · have hk2 : k ∈ ["addr"] := hk
        simp only [List.mem_cons, List.not_mem_nil, or_false] at hk2
        subst hk2
        exact hm
    have hd : handleRequest eng method "/bookmark/get" params body = handleBookmarkGet eng params := rfl
    rw [hd, h400]
    exact ⟨rfl, rfl, rfl⟩
  · -- /bookmark/delete
    have h400 : handleBookmarkDelete eng params = ([], [resp 400 "text/plain" "Missing 'addr' parameter"]) := by
      apply h400_BookmarkDelete
      rcases hmiss with ⟨hk, hm⟩ | ⟨hk, hm⟩
      · have hk2 : k ∈ ["addr"] := hk
        simp only [List.mem_cons, List.not_mem_nil, or_false] at hk2
        subst hk2
        exact getParamAddr_none_of_getParam_none params "addr" hm
      · have hk2 : k ∈ ["addr"] := hk
        simp only [List.mem_cons, List.not_mem_nil, or_false] at hk2
        subst hk2
        exact hm
    have hd : handleRequest eng method "/bookmark/delete" params body = handleBookmarkDelete eng params := rfl
    rw [hd, h400]
    exact ⟨rfl, rfl, rfl⟩
  · -- /misc/parse_expression
    have h400 : handleParseExpression eng params = ([], [resp 400 "text/plain" "Missing 'expr' parameter"]) := by
      apply h400_ParseExpression
      rcases hmiss with ⟨hk, hm⟩ | ⟨hk, hm⟩
      · have hk2 : k ∈ ["expr"] := hk
        simp only [List.mem_cons, List.not_mem_nil, or_false] at hk2
        subst hk2
        exact hm
      · have hk2 : k ∈ ([] : List String) := hk
        exact absurd hk2 (List.not_mem_nil k)
    have hd : handleRequest eng method "/misc/parse_expression" params body = handleParseExpression eng params := rfl
    rw [hd, h400]
    exact ⟨rfl, rfl, rfl⟩
  · -- /misc/resolve_label
    have h400 : handleResolveLabel eng params = ([], [resp 400 "text/plain" "Missing 'label' parameter"]) := by
      apply h400_ResolveLabel
      rcases hmiss with ⟨hk, hm⟩ | ⟨hk, hm⟩
      · have hk2 : k ∈ ["label"] := hk
        simp only [List.mem_cons, List.not_mem_nil, or_false] at hk2
        subst hk2
        exact hm
      · have hk2 : k ∈ ([] : List String) := hk
        exact absurd hk2 (List.not_mem_nil k)
    have hd : handleRequest eng method "/misc/resolve_label" params body = handleResolveLabel eng params := rfl
    rw [hd, h400]
    exact ⟨rfl, rfl, rfl⟩
  · -- /misc/get_proc_address
    have h400 : handleGetProcAddress eng params = ([], [resp 400 "text/plain" "Missing 'module' or 'api' parameter"]) := by
      apply h400_GetProcAddress
      rcases hmiss with ⟨hk, hm⟩ | ⟨hk, hm⟩
      · have hk2 : k ∈ ["module", "api"] := hk
        simp only [List.mem_cons, List.not_mem_nil, or_false] at hk2
        rcases hk2 with rfl | rfl
        exacts [Or.inl (hm),
          Or.inr (hm)]
      · have hk2 : k ∈ ([] : List String) := hk
        exact absurd hk2 (List.not_mem_nil k)
    have hd : handleRequest eng method "/misc/get_proc_address" params body = handleGetProcAddress eng params := rfl
    rw [hd, h400]
    exact ⟨rfl, rfl, rfl⟩
  · -- /assembler/assemble
    have h400 : handleAssemble eng params = ([], [resp 400 "text/plain" "Missing 'addr' or 'instruction' parameter"]) := by
      apply h400_Assemble
      rcases hmiss with ⟨hk, hm⟩ | ⟨hk, hm⟩
      · have hk2 : k ∈ ["addr", "instruction"] := hk
        simp only [List.mem_cons, List.not_mem_nil, or_false] at hk2
        rcases hk2 with rfl | rfl
        exacts [Or.inl (getParamAddr_none_of_getParam_none params "addr" hm),
          Or.inr (hm)]
      · have hk2 : k ∈ ["addr"] := hk
        simp only [List.mem_cons, List.not_mem_nil, or_false] at hk2
        subst hk2
        exact Or.inl (hm)
    have hd : handleRequest eng method "/assembler/assemble" params body = handleAssemble eng params := rfl
    rw [hd, h400]
    exact ⟨rfl, rfl, rfl⟩
  · -- /assembler/assemble_mem
    have h400 : handleAssembleMem eng params = ([], [resp 400 "text/plain" "Missing 'addr' or 'instruction' parameter"]) := by
      apply h400_AssembleMem
      rcases hmiss with ⟨hk, hm⟩ | ⟨hk, hm⟩
      · have hk2 : k ∈ ["addr", "instruction"] := hk
        simp only [List.mem_cons, List.not_mem_nil, or_false] at hk2
        rcases hk2 with rfl | rfl
        exacts [Or.inl (getParamAddr_none_of_getParam_none params "addr" hm),
          Or.inr (hm)]
      · have hk2 : k ∈ ["addr"] := hk
        simp only [List.mem_cons, List.not_mem_nil, or_false] at hk2
        subst hk2
        exact Or.inl (hm)
    have hd : handleRequest eng method "/assembler/assemble_mem" params body = handleAssembleMem eng params := rfl
    rw [hd, h400]
    exact ⟨rfl, rfl, rfl⟩
  · -- /flag/get
    have h400 : handleFlagGet eng params = ([], [resp 400 "text/plain" "Missing 'flag' parameter"]) := by
      apply h400_FlagGet
      rcases hmiss with ⟨hk, hm⟩ | ⟨hk, hm⟩
      · have hk2 : k ∈ ["flag"] := hk
        simp only [List.mem_cons, List.not_mem_nil, or_false] at hk2
        subst hk2
        exact hm
      · have hk2 : k ∈ ([] : List String) := hk
        exact absurd hk2 (List.not_mem_nil k)
    have hd : handleRequest eng method "/flag/get" params body = handleFlagGet eng params := rfl
    rw [hd, h400]
    exact ⟨rfl, rfl, rfl⟩
  · -- /flag/set
    have h400 : handleFlagSet eng params = ([], [resp 400 "text/plain" "Missing 'flag' or 'value' parameter"]) := by
      apply h400_FlagSet
      rcases hmiss with ⟨hk, hm⟩ | ⟨hk, hm⟩
      · have hk2 : k ∈ ["flag", "value"] := hk
        simp only [List.mem_cons, List.not_mem_nil, or_false] at hk2
        rcases hk2 with rfl | rfl
        exacts [Or.inl (hm),
          Or.inr (hm)]
      · have hk2 : k ∈ ([] : List String) := hk
        exact absurd hk2 (List.not_mem_nil k)
    have hd : handleRequest eng method "/flag/set" params body = handleFlagSet eng params := rfl
    rw [hd, h400]
    exact ⟨rfl, rfl, rfl⟩

/-- Witness for C1 (amended): `/register/set` with `name` present but
`value` missing answers 400 without touching the engine, and `/label/set`
with a present but unparsable `addr` (extracted through `GetParamAddr`)
also answers 400 without touching the engine. -/
theorem c1_witness :
    ((handleRequest defaultEngine "GET" "/register/set" [("name", "eax")] "").1 = [] ∧
     (handleRequest defaultEngine "GET" "/register/set"
       [("name", "eax")] "").2.map Response.code = [400] ∧
     (handleRequest defaultEngine "GET" "/register/set"
       [("name", "eax")] "").2.map Response.contentType = ["text/plain"]) ∧
    ((handleRequest defaultEngine "GET" "/label/set"
       [("addr", "zzz"), ("text", "hi")] "").1 = [] ∧
     (handleRequest defaultEngine "GET" "/label/set"
       [("addr", "zzz"), ("text", "hi")] "").2.map Response.code = [400] ∧
     (handleRequest defaultEngine "GET" "/label/set"
       [("addr", "zzz"), ("text", "hi")] "").2.map Response.contentType = ["text/plain"]) :=
  ⟨c1_param_validation_400 defaultEngine "GET" "" "/register/set" [("name", "eax")]
      "value" (by decide) (Or.inl ⟨by decide, rfl⟩),
   c1_param_validation_400 defaultEngine "GET" "" "/label/set"
      [("addr", "zzz"), ("text", "hi")] "addr" (by decide) (Or.inr ⟨by decide, rfl⟩)⟩

/-- Dispatch of `/memory/read` to its handler plus the top-level catch
(definitional: the literal path fails the five preceding comparisons). -/
theorem dispatch_memory_read (eng : Engine) (method : String) (params : ParamMap)
    (body : String) :
    handleRequest eng method "/memory/read" params body =
      (match handleMemoryRead eng params with
       | .ok r => r
       | .error msg =>
         ([], [resp 500 "application/json" ("\x7b\"error\":\"" ++ jsonEscape msg ++ "\"\x7d")])) := rfl

/-- Dispatch of `/memory/write` to its handler plus the top-level catch. -/
theorem dispatch_memory_write (eng : Engine) (method : String) (params : ParamMap)
    (body : String) :
    handleRequest eng method "/memory/write" params body =
      (match handleMemoryWrite eng params with
       | .ok r => r
       | .error msg =>
         ([], [resp 500 "application/json" ("\x7b\"error\":\"" ++ jsonEscape msg ++ "\"\x7d")])) := rfl

/-- Dispatch of `/memory/search` to its handler (which never throws). -/
theorem dispatch_memory_search (eng : Engine) (method : String) (params : ParamMap)
    (body : String) :
    handleRequest eng method "/memory/search" params body =
      handleMemorySearch eng params := rfl

/-- Claim C3: `/memory/read` with valid `addr` and `size` answers 400 and
performs no engine call when `size > 1048576`, while `size = 1048576`
passes the guard and the engine read is invoked. -/
theorem c3_memory_read_guard (eng : Engine) (method body : String) (params : ParamMap)
    (addrV sizeV : String) (a s : Nat)
    (ha : getParam params "addr" = some addrV)
    (hs : getParam params "size" = some sizeV)
    (hpa : stoullE addrV = .ok a) (hps : stoullE sizeV = .ok s) :
    (s > 1048576 →
      handleRequest eng method "/memory/read" params body =
        ([], [resp 400 "text/plain" "Size too large (max 1MB)"])) ∧
    (s = 1048576 →
      (handleRequest eng method "/memory/read" params body).1 = [.memRead a s]) := by
  constructor
  · intro hgt
    have hmem : handleMemoryRead eng params =
        .ok ([], [resp 400 "text/plain" "Size too large (max 1MB)"]) := by
      unfold handleMemoryRead
      simp only [ha, hs, hpa, hps]
      rw [if_pos (by norm_num; omega)]
    rw [dispatch_memory_read, hmem]
  · intro hseq
    subst hseq
    have hmem : ∃ rs, handleMemoryRead eng params = .ok ([.memRead a 1048576], rs) := by
      unfold handleMemoryRead
      simp only [ha, hs, hpa, hps]
      rw [if_neg (by norm_num)]
      cases eng.memRead a 1048576 <;> exact ⟨_, rfl⟩
    obtain ⟨rs, hmem⟩ := hmem
    rw [dispatch_memory_read, hmem]

/-- Witness for C3: both sides of the boundary at concrete inputs. -/
theorem c3_witness :
    handleRequest defaultEngine "GET" "/memory/read"
        [("addr", "0x1000"), ("size", "1048577")] "" =
      ([], [resp 400 "text/plain" "Size too large (max 1MB)"]) ∧
    (handleRequest defaultEngine "GET" "/memory/read"
        [("addr", "0x1000"), ("size", "1048576")] "").1 = [.memRead 4096 1048576] := by
  constructor
  · exact (c3_memory_read_guard defaultEngine "GET" ""
      [("addr", "0x1000"), ("size", "1048577")] "0x1000" "1048577"
      4096 1048577 rfl rfl rfl rfl).1 (by norm_num)
  · exact (c3_memory_read_guard defaultEngine "GET" ""
      [("addr", "0x1000"), ("size", "1048576")] "0x1000" "1048576"
      4096 1048576 rfl rfl rfl rfl).2 rfl

/-- Claim C6: a request whose path is not one of the registered endpoint
paths (matching is exact string equality) answers 404 with the plain-text
body `"Endpoint not found"`, whose lower-casing contains `"not found"`,
and performs no engine call. -/
theorem c6_unknown_path_404 (eng : Engine) (method body : String) (params : ParamMap)
    (path : String) (h : path ∉ registeredPaths) :
    handleRequest eng method path params body =
      ([], [resp 404 "text/plain" "Endpoint not found"]) ∧
    ∃ pre post, (strLower (resp 404 "text/plain" "Endpoint not found").body).data =
      pre ++ "not found".data ++ post := by
  constructor
  · simp only [registeredPaths, List.mem_cons, List.not_mem_nil, or_false, not_or] at h
    obtain ⟨h1, h2, h3, h4, h5, h6, h7, h8, h9, h10, h11, h12, h13, h14, h15, h16,
      h17, h18, h19, h20, h21, h22, h23, h24, h25, h26, h27, h28, h29, h30, h31,
      h32, h33, h34, h35, h36, h37, h38, h39, h40, h41, h42, h43, h44, h45, h46,
      h47⟩ := h
    simp [handleRequest, handleRequestE, h1, h2, h3, h4, h5, h6, h7, h8, h9, h10,
      h11, h12, h13, h14, h15, h16, h17, h18, h19, h20, h21, h22, h23, h24, h25,
      h26, h27, h28, h29, h30, h31, h32, h33, h34, h35, h36, h37, h38, h39, h40,
      h41, h42, h43, h44, h45, h46, h47]
  · exact ⟨"endpoint ".data, [], by decide⟩

/-- Witness for C6: `/no/such/endpoint` (and note `/STATUS` — matching is
exact, so a case variant of a registered path is also 404). -/
theorem c6_witness :
    handleRequest defaultEngine "GET" "/no/such/endpoint" [] "" =
      ([], [resp 404 "text/plain" "Endpoint not found"]) ∧
    handleRequest defaultEngine "GET" "/STATUS" [] "" =
      ([], [resp 404 "text/plain" "Endpoint not found"]) :=
  ⟨(c6_unknown_path_404 defaultEngine "GET" "" [] "/no/such/endpoint" (by decide)).1,
   (c6_unknown_path_404 defaultEngine "GET" "" [] "/STATUS" (by decide)).1⟩

/-- Two-characters-at-a-time induction on character lists, matching the
recursion pattern of `hexPairsDecode`. -/
theorem twoStepRec {P : List Char → Prop} (h0 : P []) (h1 : ∀ c, P [c])
    (h2 : ∀ c1 c2 t, P t → P (c1 :: c2 :: t)) : ∀ l, P l
  | [] => h0
  | [c] => h1 c
  | c1 :: c2 :: t => h2 c1 c2 t (twoStepRec h0 h1 h2 t)

/-- `std::stoi(·, nullptr, 16)` succeeds on every two-hex-digit field. -/
theorem stoi16_hex_ok :
    ∀ c1 ∈ hexDigitChars, ∀ c2 ∈ hexDigitChars,
      (stoiE false ⟨[c1, c2]⟩).toOption.isSome := by decide

/-- On a string of hex digits, the `/memory/write` hex loop succeeds and
produces exactly `⌊length / 2⌋` bytes (an odd final character is
dropped). -/
theorem hexPairsDecode_ok :
    ∀ l : List Char, (∀ c ∈ l, c ∈ hexDigitChars) →
      ∃ bs, hexPairsDecode l = .ok bs ∧ bs.length = l.length / 2 := by
  refine twoStepRec ?_ ?_ ?_
  · exact fun _ => ⟨[], rfl, rfl⟩
  · exact fun c _ => ⟨[], rfl, by simp⟩
  · intro c1 c2 t ih h
    have h1 : c1 ∈ hexDigitChars := h c1 (by simp)
    have h2 : c2 ∈ hexDigitChars := h c2 (by simp)
    have ht : ∀ c ∈ t, c ∈ hexDigitChars := fun c hc => h c (by simp [hc])
    obtain ⟨bs, hbs, hlen⟩ := ih ht
    have hok := stoi16_hex_ok c1 h1 c2 h2
    obtain ⟨v, hv⟩ : ∃ v, stoiE false ⟨[c1, c2]⟩ = .ok v := by
      rcases he : stoiE false ⟨[c1, c2]⟩ with m | v
      · rw [he] at hok; simp [Except.toOption] at hok
      · exact ⟨v, rfl⟩
    refine ⟨toByte v :: bs, ?_, ?_⟩
    · simp [hexPairsDecode, hv, hbs, Except.map]
    · simp [hlen]; omega

set_option maxRecDepth 2048 in
/-- Claim C10: a `/memory/write` request whose `data` value consists of
hex digits decodes two characters per byte, ignores a dangling odd final
character, and passes exactly `⌊length / 2⌋` bytes to the single engine
write call. -/
theorem c10_memory_write (eng : Engine) (method body : String) (params : ParamMap)
    (addrV dataV : String) (a : Nat)
    (ha : getParam params "addr" = some addrV)
    (hd : getParam params "data" = some dataV)
    (hpa : stoullE addrV = .ok a)
    (hhex : ∀ c ∈ dataV.data, c ∈ hexDigitChars) :
    ∃ bs, hexPairsDecode dataV.data = .ok bs ∧
      bs.length = dataV.length / 2 ∧
      (handleRequest eng method "/memory/write" params body).1 = [.memWrite a bs] := by
  obtain ⟨bs, hbs, hlen⟩ := hexPairsDecode_ok dataV.data hhex
  refine ⟨bs, hbs, hlen, ?_⟩
  have hmw : ∃ rs, handleMemoryWrite eng params = .ok ([.memWrite a bs], rs) := by
    unfold handleMemoryWrite
    simp only [ha, hd, hpa, hbs]
    exact ⟨_, rfl⟩
  obtain ⟨rs, hmw⟩ := hmw
  rw [dispatch_memory_write, hmw]

/-- Witness for C10: `data = "0a1b2"` (odd length 5) writes exactly two
bytes in one engine call. -/
theorem c10_witness :
    ∃ bs, hexPairsDecode "0a1b2".data = .ok bs ∧
      bs.length = 2 ∧
      (handleRequest defaultEngine "GET" "/memory/write"
        [("addr", "0x1000"), ("data", "0a1b2")] "").1 = [.memWrite 4096 bs] :=
  c10_memory_write defaultEngine "GET" ""
    [("addr", "0x1000"), ("data", "0a1b2")] "0x1000" "0a1b2" 4096
    rfl rfl rfl (by decide)

/-- Lookup after insert-or-assign: the inserted key now maps to the new
value, every other key is unaffected. -/
theorem lookup_insertAssign (k v k' : String) (m : List (String × String)) :
    lookupParam (insertAssign k v m) k' =
      if k = k' then some v else lookupParam m k' := by
  induction m with
  | nil =>
    simp only [insertAssign, lookupParam]
  | cons p t ih =>
    obtain ⟨pk, pv⟩ := p
    by_cases hpk : pk = k
    · subst hpk
      simp only [insertAssign, if_pos rfl]
      by_cases hkk : pk = k' <;> simp [lookupParam, hkk]
    · simp only [insertAssign, if_neg hpk]
      by_cases hpk' : pk = k'
      · subst hpk'
        have hk : k ≠ pk := fun h => hpk h.symm
        simp [lookupParam, hk]
      · simp [lookupParam, hpk', ih]

/-- A key occurs in the map after insert-or-assign iff it is the inserted
key or was already present. -/
theorem mem_keys_insertAssign (x k v : String) (m : List (String × String)) :
    x ∈ keysOf (insertAssign k v m) ↔ x = k ∨ x ∈ keysOf m := by
  induction m with
  | nil => simp [insertAssign, keysOf]
  | cons p t ih =>
    obtain ⟨pk, pv⟩ := p
    by_cases hpk : pk = k
    · subst hpk
      simp [insertAssign, keysOf]
      try tauto
    · simp [insertAssign, hpk, keysOf] at ih ⊢
      try tauto

/-- Insert-or-assign preserves key uniqueness. -/
theorem nodup_insertAssign (k v : String) (m : List (String × String))
    (h : (keysOf m).Nodup) : (keysOf (insertAssign k v m)).Nodup := by
  induction m with
  | nil => simp [insertAssign, keysOf]
  | cons p t ih =>
    obtain ⟨pk, pv⟩ := p
    simp only [keysOf, List.map_cons, List.nodup_cons] at h
    by_cases hpk : pk = k
    · subst hpk
      simp only [insertAssign, if_pos rfl]
      simpa [keysOf] using h
    · simp only [insertAssign, if_neg hpk]
      simp only [keysOf, List.map_cons, List.nodup_cons]
      refine ⟨?_, ih h.2⟩
      intro hmem
      rcases (mem_keys_insertAssign pk k v t).mp hmem with h1 | h1
      · exact hpk h1
      · exact h.1 h1

/-- Folding key/value pairs into the map with insert-or-assign realises
last-wins lookup. -/
theorem lookup_foldl_insert (pairs : List (String × String))
    (m : List (String × String)) (k : String) :
    lookupParam (pairs.foldl (fun acc kv => insertAssign kv.1 kv.2 acc) m) k =
      (((pairs.filter (fun kv => kv.1 = k)).getLast?.map Prod.snd).or
        (lookupParam m k)) := by
  induction pairs using List.reverseRecOn with
  | nil => simp
  | append_singleton t p ih =>
    rw [List.foldl_append]
    simp only [List.foldl_cons, List.foldl_nil, lookup_insertAssign]
    by_cases hk : p.1 = k
    · rw [if_pos hk]
      rw [List.filter_append]
      simp [hk]
    · rw [if_neg hk]
      rw [List.filter_append]
      simp [hk, ih]

/-- Folding with insert-or-assign preserves key uniqueness. -/
theorem nodup_foldl_insert (pairs : List (String × String))
    (m : List (String × String)) (h : (keysOf m).Nodup) :
    (keysOf (pairs.foldl (fun acc kv => insertAssign kv.1 kv.2 acc) m)).Nodup := by
  induction pairs generalizing m with
  | nil => exact h
  | cons p t ih => exact ih _ (nodup_insertAssign p.1 p.2 m h)

/-- `ParseQuery` is the insert-or-assign fold of the segments that carry
an `=` (the others are skipped by `filterMap segPair`). -/
theorem parseQuery_eq_fold (q : String) :
    parseQuery q = (queryPairs q).foldl (fun acc kv => insertAssign kv.1 kv.2 acc) [] := by
  unfold parseQuery queryPairs
  generalize querySegs q.data = segs
  suffices h : ∀ (segs : List (List Char)) (m : List (String × String)),
      segs.foldl (fun m seg => match segPair seg with
        | some kv => insertAssign kv.1 kv.2 m
        | none => m) m =
      (segs.filterMap segPair).foldl (fun acc kv => insertAssign kv.1 kv.2 acc) m from
    h segs []
  intro segs
  induction segs with
  | nil => intro m; rfl
  | cons s t ih =>
    intro m
    cases hs : segPair s <;> simp [hs, ih]

/-- Claim C8: the `ParamMap` produced by `ParseQuery` holds at most one
value per key (its key list is duplicate-free), a key that occurs in
several `key=value` segments maps to the value of the last one, and
segments without `=` contribute no entry (they are exactly the segments
`filterMap segPair` drops from `queryPairs`). -/
theorem c8_parseQuery_lastWins (q k : String) :
    (keysOf (parseQuery q)).Nodup ∧
    lookupParam (parseQuery q) k =
      ((queryPairs q).filter (fun kv => kv.1 = k)).getLast?.map Prod.snd := by
  constructor
  · rw [parseQuery_eq_fold]
    exact nodup_foldl_insert _ _ (by simp [keysOf])
  · rw [parseQuery_eq_fold, lookup_foldl_insert]
    simp [lookupParam]

/-- `hexUpper` produces a hex digit whose value is the encoded nibble. -/
theorem hexUpper_digitVal : ∀ n < 16, digitVal (hexUpper n) = n := by decide

/-- The stream hex parse accepts a two-uppercase-hex-digit field and
returns the encoded byte. -/
theorem hexPairParse_encoded (b : Nat) (hb : b < 256) :
    hexPairParse (hexUpper (b / 16)) (hexUpper (b % 16)) = some (b : Int) := by
  have hhi : digitVal (hexUpper (b / 16)) = b / 16 :=
    hexUpper_digitVal _ (by omega)
  have hlo : digitVal (hexUpper (b % 16)) = b % 16 :=
    hexUpper_digitVal _ (by omega)
  unfold hexPairParse
  rw [if_pos (by rw [hhi]; omega), if_pos (by rw [hlo]; omega), hhi, hlo]
  congr 1
  push_cast
  omega

/-- `UrlDecode` copies a character that is neither `%` nor `+`. -/
theorem urlDecodeList_cons_plain (c : Char) (rest : List Char)
    (h1 : c ≠ '%') (h2 : c ≠ '+') :
    urlDecodeList (c :: rest) = c :: urlDecodeList rest := by
  rw [urlDecodeList.eq_def]
  simp [h1, h2]

/-- `UrlDecode` consumes a parsed `%XX` escape as one byte. -/
theorem urlDecodeList_cons_escape (c1 c2 : Char) (rest : List Char) (v : Int)
    (hp : hexPairParse c1 c2 = some v) :
    urlDecodeList ('%' :: c1 :: c2 :: rest) =
      Char.ofNat (toByte v) :: urlDecodeList rest := by
  rw [urlDecodeList.eq_def]
  simp [hp]

/-- Claim C4: percent-encoding a byte string with standard (RFC 3986)
encoding — which escapes the reserved characters `%`, `+`, `&`, `=` among
others — and decoding the result with `UrlDecode` reproduces the original
string exactly. -/
theorem c4_urldecode_roundtrip (l : List Char) (h : ∀ c ∈ l, c.toNat < 256) :
    urlDecodeList (percentEncodeSpec l) = l := by
  induction l with
  | nil => rfl
  | cons c t ih =>
    have hc : c.toNat < 256 := h c (by simp)
    have ht : ∀ x ∈ t, x.toNat < 256 := fun x hx => h x (by simp [hx])
    have hrest := ih ht
    have hexp : percentEncodeSpec (c :: t) = encodeChar c ++ percentEncodeSpec t := by
      simp [percentEncodeSpec]
    rw [hexp]
    by_cases hu : isUnreserved c
    · rw [encodeChar, if_pos hu]
      have h1 : ¬ (c = '%') := by rintro rfl; revert hu; decide
      have h2 : ¬ (c = '+') := by rintro rfl; revert hu; decide
      simp only [List.cons_append, List.nil_append]
      rw [urlDecodeList_cons_plain c _ h1 h2, hrest]
    · rw [encodeChar, if_neg hu]
      simp only [List.cons_append, List.nil_append]
      rw [urlDecodeList_cons_escape _ _ _ _ (hexPairParse_encoded c.toNat hc), hrest]
      have hbyte : toByte (c.toNat : Int) = c.toNat := by
        unfold toByte
        omega
      rw [hbyte, Char.ofNat_toNat]

/-- Witness for C4: round trip on a concrete string containing all four
reserved characters. -/
theorem c4_witness :
    (∀ c ∈ ("a%+&= z" : String).data, c.toNat < 256) ∧
    urlDecodeList (percentEncodeSpec ("a%+&= z" : String).data) = ("a%+&= z" : String).data :=
  ⟨by decide, c4_urldecode_roundtrip ("a%+&= z" : String).data (by decide)⟩

/-- The `/memory/search` loop never collects more results than its fuel
(`(size_t)maxResults` minus the results already held). -/
theorem searchLoop_length (eng : Engine) (pat : String) (endAddr : Nat) :
    ∀ fuel a, (searchLoop eng pat endAddr fuel a).2.length ≤ fuel := by
  intro fuel
  induction fuel with
  | zero => intro a; simp [searchLoop]
  | succ n ih =>
    intro a
    by_cases h : a < endAddr
    · simp only [searchLoop, if_pos h]
      by_cases hf : eng.findMem a (endAddr - a) pat = 0
      · simp [hf]
      · simp only [if_neg hf, List.length_cons]
        exact Nat.succ_le_succ (ih _)
    · simp [searchLoop, h]

/-- Every result of the `/memory/search` loop lies in
`[searchAddr, endAddr)`, provided the engine's pattern search returns an
address inside the searched range whenever it reports a hit. -/
theorem searchLoop_mem (eng : Engine) (pat : String) (endAddr : Nat)
    (hr : ∀ a s p, eng.findMem a s p ≠ 0 →
      a ≤ eng.findMem a s p ∧ eng.findMem a s p < a + s)
    (hend : endAddr < 2 ^ 64) :
    ∀ fuel a, ∀ x ∈ (searchLoop eng pat endAddr fuel a).2, a ≤ x ∧ x < endAddr := by
  intro fuel
  induction fuel with
  | zero => intro a x hx; simp [searchLoop] at hx
  | succ n ih =>
    intro a x hx
    by_cases h : a < endAddr
    · simp only [searchLoop, if_pos h] at hx
      by_cases hf : eng.findMem a (endAddr - a) pat = 0
      · simp [hf] at hx
      · simp only [if_neg hf, List.mem_cons] at hx
        have hb := hr a (endAddr - a) pat hf
        have hfa : a ≤ eng.findMem a (endAddr - a) pat := hb.1
        have hfe : eng.findMem a (endAddr - a) pat < endAddr := by
          have := hb.2; omega
        rcases hx with rfl | hx
        · exact ⟨hfa, hfe⟩
        · have hmod : (eng.findMem a (endAddr - a) pat + 1) % 2 ^ 64 =
              eng.findMem a (endAddr - a) pat + 1 :=
            Nat.mod_eq_of_lt (by omega)
          rw [hmod] at hx
          have hx' := ih _ x hx
          exact ⟨by omega, hx'.2⟩
    · simp [searchLoop, h] at hx

/-- The results of the `/memory/search` loop are strictly increasing,
under the same engine range contract. -/
theorem searchLoop_chain (eng : Engine) (pat : String) (endAddr : Nat)
    (hr : ∀ a s p, eng.findMem a s p ≠ 0 →
      a ≤ eng.findMem a s p ∧ eng.findMem a s p < a + s)
    (hend : endAddr < 2 ^ 64) :
    ∀ fuel a, List.Chain' (· < ·) (searchLoop eng pat endAddr fuel a).2 := by
  intro fuel
  induction fuel with
  | zero => intro a; simp [searchLoop]
  | succ n ih =>
    intro a
    by_cases h : a < endAddr
    · simp only [searchLoop, if_pos h]
      by_cases hf : eng.findMem a (endAddr - a) pat = 0
      · simp [hf]
      · simp only [if_neg hf]
        refine List.chain'_cons'.mpr ⟨?_, ih _⟩
        intro y hy
        have hylist := List.mem_of_mem_head? hy
        have hb := searchLoop_mem eng pat endAddr hr hend n _ y hylist
        have hfb := hr a (endAddr - a) pat hf
        have hmod : (eng.findMem a (endAddr - a) pat + 1) % 2 ^ 64 =
            eng.findMem a (endAddr - a) pat + 1 :=
          Nat.mod_eq_of_lt (by omega)
        rw [hmod] at hb
        omega
    · simp [searchLoop, h]

/-- Claim C9 (amended): in a successful `/memory/search` response the
result addresses are strictly increasing (given the engine returns a hit
inside the searched range or 0), the `count` field of the body is the
length of the results array, and the number of results never exceeds
`(size_t)max` — the `max` parameter converted to `size_t`, which equals
`max` itself only when `max ≥ 0` (default 100 when absent or unparsable);
a negative `max` makes the bound `2^64 - |max|`, effectively unbounded. -/
theorem c9_memory_search_amended (eng : Engine) (method body : String)
    (params : ParamMap) (startV sizeV patV : String) (start size : Nat)
    (h1 : getParam params "start" = some startV)
    (h2 : getParam params "size" = some sizeV)
    (h3 : getParam params "pattern" = some patV)
    (hps : stoullE startV = .ok start)
    (hss : stoullE sizeV = .ok size)
    (hr : ∀ a s p, eng.findMem a s p ≠ 0 →
      a ≤ eng.findMem a s p ∧ eng.findMem a s p < a + s) :
    List.Chain' (· < ·)
      (searchLoop eng patV ((start + size) % 2 ^ 64)
        (asSizeT (getParamIntD params "max" 100)) start).2 ∧
    (searchLoop eng patV ((start + size) % 2 ^ 64)
        (asSizeT (getParamIntD params "max" 100)) start).2.length ≤
      asSizeT (getParamIntD params "max" 100) ∧
    handleRequest eng method "/memory/search" params body =
      ((searchLoop eng patV ((start + size) % 2 ^ 64)
          (asSizeT (getParamIntD params "max" 100)) start).1,
       [resp 200 "application/json"
         ("\x7b\"count\":" ++
          toString (searchLoop eng patV ((start + size) % 2 ^ 64)
            (asSizeT (getParamIntD params "max" 100)) start).2.length ++
          ",\"results\":[" ++
          hexListJson (searchLoop eng patV ((start + size) % 2 ^ 64)
            (asSizeT (getParamIntD params "max" 100)) start).2 ++ "]\x7d")]) := by
  have hend : (start + size) % 2 ^ 64 < 2 ^ 64 :=
    Nat.mod_lt _ (by norm_num)
  refine ⟨searchLoop_chain eng patV _ hr hend _ start,
          searchLoop_length eng patV _ _ start, ?_⟩
  rw [dispatch_memory_search]
  unfold handleMemorySearch
  simp only [getParamAddr, h1, h2, h3, hps, hss, Except.toOption]

/-- Witness for C9 (amended): a three-byte range searched with
`searchEngine` yields the strictly increasing results `[0x1, 0x2]`. -/
theorem c9_witness :
    List.Chain' (· < ·) (searchLoop searchEngine "x" 3 100 1).2 ∧
    (searchLoop searchEngine "x" 3 100 1).2.length ≤ 100 ∧
    handleRequest searchEngine "GET" "/memory/search"
        [("start", "1"), ("size", "2"), ("pattern", "x")] "" =
      ((searchLoop searchEngine "x" 3 100 1).1,
       [resp 200 "application/json"
         ("\x7b\"count\":" ++ toString (searchLoop searchEngine "x" 3 100 1).2.length ++
          ",\"results\":[" ++ hexListJson (searchLoop searchEngine "x" 3 100 1).2 ++
          "]\x7d")]) :=
  c9_memory_search_amended searchEngine "GET" ""
    [("start", "1"), ("size", "2"), ("pattern", "x")] "1" "2" "x" 1 2
    rfl rfl rfl rfl rfl
    (by
      intro a s p hf
      by_cases hs : s = 0
      · simp [searchEngine, defaultEngine, hs] at hf
      · simp only [searchEngine, defaultEngine, if_neg hs] at hf ⊢
        omega)

/-- Claim C9 (counterexample): with `max = -1` (which parses), the
`(size_t)` cast turns the bound into `2^64 - 1`, so the handler returns
2 results even though 2 exceeds the `max` parameter −1. -/
theorem c9_counterexample :
    handleRequest searchEngine "GET" "/memory/search"
        [("start", "1"), ("size", "2"), ("pattern", "x"), ("max", "-1")] "" =
      ([.findMem 1 2 "x", .findMem 2 1 "x"],
       [resp 200 "application/json" "\x7b\"count\":2,\"results\":[\"0x1\",\"0x2\"]\x7d"]) ∧
    getParamIntD [("start", "1"), ("size", "2"), ("pattern", "x"), ("max", "-1")]
        "max" 100 = -1 ∧
    ¬((2 : Int) ≤ -1) :=
  ⟨by decide, rfl, by decide⟩

/-- The digit counter of `parseDigits` never decreases. -/
theorem parseDigits_cnt_le :
    ∀ (l : List Char) (b a n : Nat), n ≤ (parseDigits b a n l).2 := by
  intro l
  induction l with
  | nil => intro b a n; simp [parseDigits]
  | cons c t ih =>
    intro b a n
    by_cases h : digitVal c < b
    · simp only [parseDigits, if_pos h]
      exact le_trans (Nat.le_succ n) (ih b _ (n + 1))
    · simp [parseDigits, h]

/-- The `strto*` scan consumes at least one digit exactly when the value
(after whitespace and sign) starts with `0` or a digit of the detected
base. -/
theorem strtoParts_isSome_iff (base0 : Bool) (s : String) :
    (strtoParts base0 s.data).isSome = numericHeadOk base0 s := by
  unfold strtoParts numericHeadOk
  dsimp only
  rcases hl : (readSign (s.data.dropWhile isWsChar)).2 with _ | ⟨c, rest⟩
  · simp [magParse, parseDigits]
  · by_cases hc : c = '0'
    · subst hc
      rcases rest with _ | ⟨x, rest'⟩
      · simp [magParse]
      · simp only [magParse]
        split_ifs <;> simp
    · by_cases hd : digitVal c < (if base0 then 10 else 16)
      · have h1 : 1 ≤ (parseDigits (if base0 then 10 else 16) 0 0 (c :: rest)).2 := by
          simp only [parseDigits, if_pos hd]
          exact parseDigits_cnt_le rest _ _ 1
        simp [magParse, hc, hd]
        omega
      · simp [magParse, parseDigits, hc, hd]

/-- A character with a digit value below 16 is not whitespace and not a
sign. -/
theorem digit_head_clean (c : Char) (hd : digitVal c < 16) :
    isWsChar c = false ∧ c ≠ '-' ∧ c ≠ '+' := by
  refine ⟨?_, ?_, ?_⟩
  · cases hws : isWsChar c
    · rfl
    · exfalso
      have hmem := of_decide_eq_true hws
      rcases hmem with h | h | h | h | h | h <;> subst h <;> exact absurd hd (by decide)
  · rintro rfl; exact absurd hd (by decide)
  · rintro rfl; exact absurd hd (by decide)

/-- Claim C5 (counterexample): `GetParamAddr` succeeds on the value
`"0x10zz"` (yielding 16) although that value does not parse under a
strict numeric parse — `std::stoull` ignores the trailing characters. -/
theorem c5_counterexample :
    getParamAddr [("addr", "0x10zz")] "addr" = some 16 ∧
    strictNumParse "0x10zz" = none :=
  ⟨rfl, rfl⟩

/-- Claim C5 (amended): `GetParamAddr`/`GetParamInt` succeed on a present
parameter exactly when the value begins — after optional whitespace and
an optional sign — with a digit of the detected base (`0x` → hex, other
leading `0` → octal, otherwise decimal) and the parsed value fits the
result type (unsigned 64-bit / signed 32-bit); trailing characters after
the digit run are ignored rather than rejected, so a strict parse is
sufficient but not necessary for success. -/
theorem c5_getParam_numeric_amended (params : ParamMap) (k v : String)
    (h : getParam params k = some v) :
    ((getParamAddr params k).isSome ↔
      numericHeadOk true v = true ∧ ∀ m ∈ strtoParts true v.data, m.2 < 2 ^ 64) ∧
    ((getParamInt params k).isSome ↔
      numericHeadOk true v = true ∧ ∀ m ∈ strtoParts true v.data,
        -(2 ^ 31 : Int) ≤ (if m.1 then -(m.2 : Int) else (m.2 : Int)) ∧
          (if m.1 then -(m.2 : Int) else (m.2 : Int)) < 2 ^ 31) ∧
    (strictNumParse v ≠ none → numericHeadOk true v = true) := by
  have hiff := strtoParts_isSome_iff true v
  refine ⟨?_, ?_, ?_⟩
  · unfold getParamAddr stoullE
    rw [h]
    dsimp only
    rcases hm : strtoParts true v.data with _ | ⟨neg, m⟩
    · rw [hm] at hiff
      simp [← hiff, Except.toOption]
    · rw [hm] at hiff
      have hpre : numericHeadOk true v = true := by rw [← hiff]; rfl
      dsimp only
      split_ifs with hc <;> simp_all [Except.toOption]
  · unfold getParamInt stoiE
    rw [h]
    dsimp only
    rcases hm : strtoParts true v.data with _ | ⟨neg, m⟩
    · rw [hm] at hiff
      simp [← hiff, Except.toOption]
    · rw [hm] at hiff
      have hpre : numericHeadOk true v = true := by rw [← hiff]; rfl
      dsimp only
      split_ifs with hc <;> simp_all [Except.toOption]
  · intro hstrict
    rcases hv : v.data with _ | ⟨c1, t1⟩
    · unfold strictNumParse at hstrict
      rw [hv] at hstrict
      simp at hstrict
    · by_cases hz : c1 = '0'
      · subst hz
        unfold numericHeadOk
        rw [hv]
        have hdw : List.dropWhile isWsChar ('0' :: t1) = '0' :: t1 := by
          simp [List.dropWhile_cons, show isWsChar '0' = false from rfl]
        rw [hdw]
        have hrs : readSign ('0' :: t1) = (false, '0' :: t1) := by
          unfold readSign
          dsimp only
          rw [if_neg (by decide), if_neg (by decide)]
        rw [hrs]
        simp
      · have hd10 : digitVal c1 < 10 := by
          unfold strictNumParse at hstrict
          rw [hv] at hstrict
          split at hstrict
          · rename_i rest heq
            exact absurd (List.head_eq_of_cons_eq heq) hz
          · split_ifs at hstrict with hcond
            · have hall := hcond.2
              simp only [List.all_cons, Bool.and_eq_true, decide_eq_true_eq] at hall
              exact hall.1
            · exact absurd rfl hstrict
        unfold numericHeadOk
        rw [hv]
        have h16 : digitVal c1 < 16 := by omega
        obtain ⟨hws, hminus, hplus⟩ := digit_head_clean c1 h16
        have hdw : List.dropWhile isWsChar (c1 :: t1) = c1 :: t1 := by
          simp [List.dropWhile_cons, hws]
        rw [hdw]
        have hrs : readSign (c1 :: t1) = (false, c1 :: t1) := by
          unfold readSign
          dsimp only
          rw [if_neg hminus, if_neg hplus]
        rw [hrs]
        simp [hz, hd10]

/-- Witness for C5 (amended): `"0x10zz"` has a valid numeric prefix, so
`GetParamAddr` succeeds on it even though the strict parse rejects it. -/
theorem c5_witness :
    (getParamAddr [("addr", "0x10zz")] "addr").isSome = true :=
  ((c5_getParam_numeric_amended [("addr", "0x10zz")] "addr" "0x10zz" rfl).1).mpr
    ⟨by decide, by
      intro m hm
      have heval : strtoParts true ("0x10zz" : String).data = some (false, 16) := rfl
      rw [heval] at hm
      simp only [Option.mem_def, Option.some.injEq] at hm
      subst hm
      decide⟩

/-- `handleStatus` writes exactly one response on every path. -/
theorem one_resp_Status (eng : Engine) (params : ParamMap) :
    (handleStatus eng params).2.length = 1 := by
  unfold handleStatus
  (repeat' split) <;> rfl

/-- `handleCmd` writes exactly one response on every path. -/
theorem one_resp_Cmd (eng : Engine) (params : ParamMap) :
    (handleCmd eng params).2.length = 1 := by
  unfold handleCmd
  (repeat' split) <;> rfl

/-- `handleRegisterGet` writes exactly one response on every path. -/
theorem one_resp_RegisterGet (eng : Engine) (params : ParamMap) :
    (handleRegisterGet eng params).2.length = 1 := by
  unfold handleRegisterGet
  (repeat' split) <;> rfl

/-- `handleFindMem` writes exactly one response on every path. -/
theorem one_resp_FindMem (eng : Engine) (params : ParamMap) :
    (handleFindMem eng params).2.length = 1 := by
  unfold handleFindMem
  (repeat' split) <;> rfl

/-- `handleSearchReplaceMem` writes exactly one response on every path. -/
theorem one_resp_SearchReplaceMem (eng : Engine) (params : ParamMap) :
    (handleSearchReplaceMem eng params).2.length = 1 := by
  unfold handleSearchReplaceMem
  (repeat' split) <;> rfl

/-- `handleMemorySearch` writes exactly one response on every path. -/
theorem one_resp_MemorySearch (eng : Engine) (params : ParamMap) :
    (handleMemorySearch eng params).2.length = 1 := by
  unfold handleMemorySearch
  (repeat' split) <;> rfl

/-- `handleDebugRun` writes exactly one response on every path. -/
theorem one_resp_DebugRun (eng : Engine) (params : ParamMap) :
    (handleDebugRun eng params).2.length = 1 := by
  unfold handleDebugRun
  (repeat' split) <;> rfl

/-- `handleDebugPause` writes exactly one response on every path. -/
theorem one_resp_DebugPause (eng : Engine) (params : ParamMap) :
    (handleDebugPause eng params).2.length = 1 := by
  unfold handleDebugPause
  (repeat' split) <;> rfl

/-- `handleDebugStep` writes exactly one response on every path. -/
theorem one_resp_DebugStep (eng : Engine) (params : ParamMap) :
    (handleDebugStep eng params).2.length = 1 := by
  unfold handleDebugStep
  (repeat' split) <;> rfl

/-- `handleDebugStepOver` writes exactly one response on every path. -/
theorem one_resp_DebugStepOver (eng : Engine) (params : ParamMap) :
    (handleDebugStepOver eng params).2.length = 1 := by
  unfold handleDebugStepOver
  (repeat' split) <;> rfl

/-- `handleDebugStepOut` writes exactly one response on every path. -/
theorem one_resp_DebugStepOut (eng : Engine) (params : ParamMap) :
    (handleDebugStepOut eng params).2.length = 1 := by
  unfold handleDebugStepOut
  (repeat' split) <;> rfl

/-- `handleModules` writes exactly one response on every path. -/
theorem one_resp_Modules (eng : Engine) (params : ParamMap) :
    (handleModules eng params).2.length = 1 := by
  unfold handleModules
  (repeat' split) <;> rfl

/-- `handleSymbolsList` writes exactly one response on every path. -/
theorem one_resp_SymbolsList (eng : Engine) (params : ParamMap) :
    (handleSymbolsList eng params).2.length = 1 := by
  unfold handleSymbolsList
  (repeat' split) <;> rfl

/-- `handleLabelSet` writes exactly one response on every path. -/
theorem one_resp_LabelSet (eng : Engine) (params : ParamMap) :
    (handleLabelSet eng params).2.length = 1 := by
  unfold handleLabelSet
  (repeat' split) <;> rfl

/-- `handleLabelGet` writes exactly one response on every path. -/
theorem one_resp_LabelGet (eng : Engine) (params : ParamMap) :
    (handleLabelGet eng params).2.length = 1 := by
  unfold handleLabelGet
  (repeat' split) <;> rfl

/-- `handleLabelDelete` writes exactly one response on every path. -/
theorem one_resp_LabelDelete (eng : Engine) (params : ParamMap) :
    (handleLabelDelete eng params).2.length = 1 := by
  unfold handleLabelDelete
  (repeat' split) <;> rfl

/-- `handleLabelFromString` writes exactly one response on every path. -/
theorem one_resp_LabelFromString (eng : Engine) (params : ParamMap) :
    (handleLabelFromString eng params).2.length = 1 := by
  unfold handleLabelFromString
  (repeat' split) <;> rfl

/-- `handleLabelList` writes exactly one response on every path. -/
theorem one_resp_LabelList (eng : Engine) (params : ParamMap) :
    (handleLabelList eng params).2.length = 1 := by
  unfold handleLabelList
  (repeat' split) <;> rfl

/-- `handleCommentSet` writes exactly one response on every path. -/
theorem one_resp_CommentSet (eng : Engine) (params : ParamMap) :
    (handleCommentSet eng params).2.length = 1 := by
  unfold handleCommentSet
  (repeat' split) <;> rfl

/-- `handleCommentGet` writes exactly one response on every path. -/
theorem one_resp_CommentGet (eng : Engine) (params : ParamMap) :
    (handleCommentGet eng params).2.length = 1 := by
  unfold handleCommentGet
  (repeat' split) <;> rfl

/-- `handleCommentDelete` writes exactly one response on every path. -/
theorem one_resp_CommentDelete (eng : Engine) (params : ParamMap) :
    (handleCommentDelete eng params).2.length = 1 := by
  unfold handleCommentDelete
  (repeat' split) <;> rfl

/-- `handleCommentList` writes exactly one response on every path. -/
theorem one_resp_CommentList (eng : Engine) (params : ParamMap) :
    (handleCommentList eng params).2.length = 1 := by
  unfold handleCommentList
  (repeat' split) <;> rfl

/-- `handleStackPush` writes exactly one response on every path. -/
theorem one_resp_StackPush (eng : Engine) (params : ParamMap) :
    (handleStackPush eng params).2.length = 1 := by
  unfold handleStackPush
  (repeat' split) <;> rfl

/-- `handleStackPop` writes exactly one response on every path. -/
theorem one_resp_StackPop (eng : Engine) (params : ParamMap) :
    (handleStackPop eng params).2.length = 1 := by
  unfold handleStackPop
  (repeat' split) <;> rfl

/-- `handleStackPeek` writes exactly one response on every path. -/
theorem one_resp_StackPeek (eng : Engine) (params : ParamMap) :
    (handleStackPeek eng params).2.length = 1 := by
  unfold handleStackPeek
  (repeat' split) <;> rfl

/-- `handleFunctionAdd` writes exactly one response on every path. -/
theorem one_resp_FunctionAdd (eng : Engine) (params : ParamMap) :
    (handleFunctionAdd eng params).2.length = 1 := by
  unfold handleFunctionAdd
  (repeat' split) <;> rfl

/-- `handleFunctionGet` writes exactly one response on every path. -/
theorem one_resp_FunctionGet (eng : Engine) (params : ParamMap) :
    (handleFunctionGet eng params).2.length = 1 := by
  unfold handleFunctionGet
  (repeat' split) <;> rfl

/-- `handleFunctionDelete` writes exactly one response on every path. -/
theorem one_resp_FunctionDelete (eng : Engine) (params : ParamMap) :
    (handleFunctionDelete eng params).2.length = 1 := by
  unfold handleFunctionDelete
  (repeat' split) <;> rfl

/-- `handleFunctionList` writes exactly one response on every path. -/
theorem one_resp_FunctionList (eng : Engine) (params : ParamMap) :
    (handleFunctionList eng params).2.length = 1 := by
  unfold handleFunctionList
  (repeat' split) <;> rfl

/-- `handleBookmarkSet` writes exactly one response on every path. -/
theorem one_resp_BookmarkSet (eng : Engine) (params : ParamMap) :
    (handleBookmarkSet eng params).2.length = 1 := by
  unfold handleBookmarkSet
  (repeat' split) <;> rfl

/-- `handleBookmarkGet` writes exactly one response on every path. -/
theorem one_resp_BookmarkGet (eng : Engine) (params : ParamMap) :
    (handleBookmarkGet eng params).2.length = 1 := by
  unfold handleBookmarkGet
  (repeat' split) <;> rfl

/-- `handleBookmarkDelete` writes exactly one response on every path. -/
theorem one_resp_BookmarkDelete (eng : Engine) (params : ParamMap) :
    (handleBookmarkDelete eng params).2.length = 1 := by
  unfold handleBookmarkDelete
  (repeat' split) <;> rfl

/-- `handleBookmarkList` writes exactly one response on every path. -/
theorem one_resp_BookmarkList (eng : Engine) (params : ParamMap) :
    (handleBookmarkList eng params).2.length = 1 := by
  unfold handleBookmarkList
  (repeat' split) <;> rfl

/-- `handleParseExpression` writes exactly one response on every path. -/
theorem one_resp_ParseExpression (eng : Engine) (params : ParamMap) :
    (handleParseExpression eng params).2.length = 1 := by
  unfold handleParseExpression
  (repeat' split) <;> rfl

/-- `handleResolveLabel` writes exactly one response on every path. -/
theorem one_resp_ResolveLabel (eng : Engine) (params : ParamMap) :
    (handleResolveLabel eng params).2.length = 1 := by
  unfold handleResolveLabel
  (repeat' split) <;> rfl

/-- `handleGetProcAddress` writes exactly one response on every path. -/
theorem one_resp_GetProcAddress (eng : Engine) (params : ParamMap) :
    (handleGetProcAddress eng params).2.length = 1 := by
  unfold handleGetProcAddress
  (repeat' split) <;> rfl

/-- `handleAssemble` writes exactly one response on every path. -/
theorem one_resp_Assemble (eng : Engine) (params : ParamMap) :
    (handleAssemble eng params).2.length = 1 := by
  unfold handleAssemble
  (repeat' split) <;> rfl

/-- `handleAssembleMem` writes exactly one response on every path. -/
theorem one_resp_AssembleMem (eng : Engine) (params : ParamMap) :
    (handleAssembleMem eng params).2.length = 1 := by
  unfold handleAssembleMem
  (repeat' split) <;> rfl

/-- `handleFlagGet` writes exactly one response on every path. -/
theorem one_resp_FlagGet (eng : Engine) (params : ParamMap) :
    (handleFlagGet eng params).2.length = 1 := by
  unfold handleFlagGet
  (repeat' split) <;> rfl

/-- `handleFlagSet` writes exactly one response on every path. -/
theorem one_resp_FlagSet (eng : Engine) (params : ParamMap) :
    (handleFlagSet eng params).2.length = 1 := by
  unfold handleFlagSet
  (repeat' split) <;> rfl

/-- `handleFlagsGetAll` writes exactly one response on every path. -/
theorem one_resp_FlagsGetAll (eng : Engine) (params : ParamMap) :
    (handleFlagsGetAll eng params).2.length = 1 := by
  unfold handleFlagsGetAll
  (repeat' split) <;> rfl

/-- `handleRegisterSet` writes exactly one response on every path, counting the
boundary's 500 for a throw. -/
theorem one_resp_RegisterSet (eng : Engine) (params : ParamMap) :
    respCount (handleRegisterSet eng params) = 1 := by
  unfold handleRegisterSet
  (repeat' split) <;> rfl

/-- `handleMemoryRead` writes exactly one response on every path, counting the
boundary's 500 for a throw. -/
theorem one_resp_MemoryRead (eng : Engine) (params : ParamMap) :
    respCount (handleMemoryRead eng params) = 1 := by
  unfold handleMemoryRead
  (repeat' split) <;> rfl

/-- `handleMemoryWrite` writes exactly one response on every path, counting the
boundary's 500 for a throw. -/
theorem one_resp_MemoryWrite (eng : Engine) (params : ParamMap) :
    respCount (handleMemoryWrite eng params) = 1 := by
  unfold handleMemoryWrite
  (repeat' split) <;> rfl

/-- `handleBreakpointSet` writes exactly one response on every path, counting the
boundary's 500 for a throw. -/
theorem one_resp_BreakpointSet (eng : Engine) (params : ParamMap) :
    respCount (handleBreakpointSet eng params) = 1 := by
  unfold handleBreakpointSet
  (repeat' split) <;> rfl

/-- `handleBreakpointDelete` writes exactly one response on every path, counting the
boundary's 500 for a throw. -/
theorem one_resp_BreakpointDelete (eng : Engine) (params : ParamMap) :
    respCount (handleBreakpointDelete eng params) = 1 := by
  unfold handleBreakpointDelete
  (repeat' split) <;> rfl

/-- `handleDisasm` writes exactly one response on every path, counting the
boundary's 500 for a throw. -/
theorem one_resp_Disasm (eng : Engine) (params : ParamMap) :
    respCount (handleDisasm eng params) = 1 := by
  unfold handleDisasm
  (repeat' split) <;> rfl

set_option maxHeartbeats 2000000 in
/-- The dispatcher, wrapped by the top-level boundary, leads to exactly
one response for every path and parameter map. -/
theorem respCount_handleRequestE (eng : Engine) (method path : String)
    (params : ParamMap) (body : String) :
    respCount (handleRequestE eng method path params body) = 1 := by
  unfold handleRequestE
  by_cases h1 : path = "/status"
  · rw [if_pos h1]; exact one_resp_Status eng params
  rw [if_neg h1]
  by_cases h2 : path = "/cmd"
  · rw [if_pos h2]; exact one_resp_Cmd eng params
  rw [if_neg h2]
  by_cases h3 : path = "/register/get"
  · rw [if_pos h3]; exact one_resp_RegisterGet eng params
  rw [if_neg h3]
  by_cases h4 : path = "/register/set"
  · rw [if_pos h4]; exact one_resp_RegisterSet eng params
  rw [if_neg h4]
  by_cases h5 : path = "/memory/read"
  · rw [if_pos h5]; exact one_resp_MemoryRead eng params
  rw [if_neg h5]
  by_cases h6 : path = "/memory/write"
  · rw [if_pos h6]; exact one_resp_MemoryWrite eng params
  rw [if_neg h6]
  by_cases h7 : path = "/pattern/find_mem"
  · rw [if_pos h7]; exact one_resp_FindMem eng params
  rw [if_neg h7]
  by_cases h8 : path = "/pattern/search_replace_mem"
  · rw [if_pos h8]; exact one_resp_SearchReplaceMem eng params
  rw [if_neg h8]
  by_cases h9 : path = "/memory/search"
  · rw [if_pos h9]; exact one_resp_MemorySearch eng params
  rw [if_neg h9]
  by_cases h10 : path = "/debug/run"
  · rw [if_pos h10]; exact one_resp_DebugRun eng params
  rw [if_neg h10]
  by_cases h11 : path = "/debug/pause"
  · rw [if_pos h11]; exact one_resp_DebugPause eng params
  rw [if_neg h11]
  by_cases h12 : path = "/debug/step"
  · rw [if_pos h12]; exact one_resp_DebugStep eng params
  rw [if_neg h12]
  by_cases h13 : path = "/debug/stepover"
  · rw [if_pos h13]; exact one_resp_DebugStepOver eng params
  rw [if_neg h13]
  by_cases h14 : path = "/debug/stepout"
  · rw [if_pos h14]; exact one_resp_DebugStepOut eng params
  rw [if_neg h14]
  by_cases h15 : path = "/breakpoint/set"
  · rw [if_pos h15]; exact one_resp_BreakpointSet eng params
  rw [if_neg h15]
  by_cases h16 : path = "/breakpoint/delete"
  · rw [if_pos h16]; exact one_resp_BreakpointDelete eng params
  rw [if_neg h16]
  by_cases h17 : path = "/disasm"
  · rw [if_pos h17]; exact one_resp_Disasm eng params
  rw [if_neg h17]
  by_cases h18 : path = "/modules"
  · rw [if_pos h18]; exact one_resp_Modules eng params
  rw [if_neg h18]
  by_cases h19 : path = "/symbols/list"
  · rw [if_pos h19]; exact one_resp_SymbolsList eng params
  rw [if_neg h19]
  by_cases h20 : path = "/label/set"
  · rw [if_pos h20]; exact one_resp_LabelSet eng params
  rw [if_neg h20]
  by_cases h21 : path = "/label/get"
  · rw [if_pos h21]; exact one_resp_LabelGet eng params
  rw [if_neg h21]
  by_cases h22 : path = "/label/delete"
  · rw [if_pos h22]; exact one_resp_LabelDelete eng params
  rw [if_neg h22]
  by_cases h23 : path = "/label/from_string"
  · rw [if_pos h23]; exact one_resp_LabelFromString eng params
  rw [if_neg h23]
  by_cases h24 : path = "/label/list"
  · rw [if_pos h24]; exact one_resp_LabelList eng params
  rw [if_neg h24]
  by_cases h25 : path = "/comment/set"
  · rw [if_pos h25]; exact one_resp_CommentSet eng params
  rw [if_neg h25]
  by_cases h26 : path = "/comment/get"
  · rw [if_pos h26]; exact one_resp_CommentGet eng params
  rw [if_neg h26]
  by_cases h27 : path = "/comment/delete"
  · rw [if_pos h27]; exact one_resp_CommentDelete eng params
  rw [if_neg h27]
  by_cases h28 : path = "/comment/list"
  · rw [if_pos h28]; exact one_resp_CommentList eng params
  rw [if_neg h28]
  by_cases h29 : path = "/stack/push"
  · rw [if_pos h29]; exact one_resp_StackPush eng params
  rw [if_neg h29]
  by_cases h30 : path = "/stack/pop"
  · rw [if_pos h30]; exact one_resp_StackPop eng params
  rw [if_neg h30]
  by_cases h31 : path = "/stack/peek"
  · rw [if_pos h31]; exact one_resp_StackPeek eng params
  rw [if_neg h31]
  by_cases h32 : path = "/function/add"
  · rw [if_pos h32]; exact one_resp_FunctionAdd eng params
  rw [if_neg h32]
  by_cases h33 : path = "/function/get"
  · rw [if_pos h33]; exact one_resp_FunctionGet eng params
  rw [if_neg h33]
  by_cases h34 : path = "/function/delete"
  · rw [if_pos h34]; exact one_resp_FunctionDelete eng params
  rw [if_neg h34]
  by_cases h35 : path = "/function/list"
  · rw [if_pos h35]; exact one_resp_FunctionList eng params
  rw [if_neg h35]
  by_cases h36 : path = "/bookmark/set"
  · rw [if_pos h36]; exact one_resp_BookmarkSet eng params
  rw [if_neg h36]
  by_cases h37 : path = "/bookmark/get"
  · rw [if_pos h37]; exact one_resp_BookmarkGet eng params
  rw [if_neg h37]
  by_cases h38 : path = "/bookmark/delete"
  · rw [if_pos h38]; exact one_resp_BookmarkDelete eng params
  rw [if_neg h38]
  by_cases h39 : path = "/bookmark/list"
  · rw [if_pos h39]; exact one_resp_BookmarkList eng params
  rw [if_neg h39]
  by_cases h40 : path = "/misc/parse_expression"
  · rw [if_pos h40]; exact one_resp_ParseExpression eng params
  rw [if_neg h40]
  by_cases h41 : path = "/misc/resolve_label"
  · rw [if_pos h41]; exact one_resp_ResolveLabel eng params
  rw [if_neg h41]
  by_cases h42 : path = "/misc/get_proc_address"
  · rw [if_pos h42]; exact one_resp_GetProcAddress eng params
  rw [if_neg h42]
  by_cases h43 : path = "/assembler/assemble"
  · rw [if_pos h43]; exact one_resp_Assemble eng params
  rw [if_neg h43]
  by_cases h44 : path = "/assembler/assemble_mem"
  · rw [if_pos h44]; exact one_resp_AssembleMem eng params
  rw [if_neg h44]
  by_cases h45 : path = "/flag/get"
  · rw [if_pos h45]; exact one_resp_FlagGet eng params
  rw [if_neg h45]
  by_cases h46 : path = "/flag/set"
  · rw [if_pos h46]; exact one_resp_FlagSet eng params
  rw [if_neg h46]
  by_cases h47 : path = "/flags/get_all"
  · rw [if_pos h47]; exact one_resp_FlagsGetAll eng params
  rw [if_neg h47]
  rfl

/-- `HandleRequest` writes exactly one response on every invocation. -/
theorem handleRequest_one_response (eng : Engine) (method path : String)
    (params : ParamMap) (body : String) :
    (handleRequest eng method path params body).2.length = 1 := by
  have h := respCount_handleRequestE eng method path params body
  unfold handleRequest
  rcases he : handleRequestE eng method path params body with m | r
  · rw [he] at h
    simpa [respCount] using h
  · rw [he] at h
    simpa [respCount] using h

/-- Claim C2 (counterexample): an accepted connection that delivers data
without a well-formed request line (here the bytes `"garbage"`, which
contain no CRLF) is closed with zero responses written, not exactly
one. -/
theorem c2_counterexample :
    connectionResponses defaultEngine (some "garbage") = [] ∧
    ([] : List Response).length ≠ 1 :=
  ⟨rfl, by decide⟩

/-- Claim C2 (amended): the server never writes more than one response
per accepted connection, and it writes exactly one precisely when the
read delivered data whose request line parses (CRLF-terminated first
line containing two spaces); a failed read or a malformed request line
closes the connection with no response written. -/
theorem c2_one_response_amended (eng : Engine) (recv : Option String) :
    (connectionResponses eng recv).length ≤ 1 ∧
    ((connectionResponses eng recv).length = 1 ↔
      ∃ raw, recv = some raw ∧ (parseRequest raw).isSome = true) := by
  rcases recv with _ | raw
  · simp [connectionResponses]
  · rcases hp : parseRequest raw with _ | r
    · simp [connectionResponses, hp]
    · have h1 := handleRequest_one_response eng r.1 r.2.1 r.2.2.1 r.2.2.2
      simp [connectionResponses, hp, h1]

end X32MCP
